import Mathlib

/-!
Verification of the NxLite static HTTP server (C sources under src/).

The development shallowly embeds the request/response pipeline of
src/src/http.c and the worker logic of the worker translation unit
(src/unnamed/part_004) as executable Lean functions over lists of
characters.  Strings of the C program are modelled as `List Char`
(the terminating NUL is implicit: a C string's contents are the
characters before its NUL).  `time_t` values are modelled as `Int`.
Filesystem and libc effects (`realpath`, `stat`/`fstat`/`open`,
`strftime`, `strptime`/`mktime`, `zlib` compression, `malloc`
success) are supplied as oracle parameters so that each code path of
the C sources has a corresponding branch of the Lean functions.
-/

/-- Shorthand turning a string literal into the `List Char` the embedding uses. -/
def str (s : String) : List Char := s.data

/-- C `tolower` restricted to ASCII, as used through `strcasecmp`. -/
def lowerChar (c : Char) : Char :=
  if 'A' ≤ c ∧ c ≤ 'Z' then Char.ofNat (c.toNat + 32) else c

/-- C `strcasecmp(a, b) == 0`: case-insensitive equality of two strings. -/
def strCaseEq (a b : List Char) : Bool :=
  a.map lowerChar = b.map lowerChar

/-- C `isspace` (the default locale set: space, \t, \n, \v, \f, \r). -/
def isspaceB (c : Char) : Bool :=
  c = ' ' ∨ c = '\t' ∨ c = '\n' ∨ c = '\x0b' ∨ c = '\x0c' ∨ c = '\r'

/-- Boolean "pat is a prefix of l" on character lists. -/
def isPrefixB : List Char → List Char → Bool
  | [], _ => true
  | _ :: _, [] => false
  | p :: ps, c :: cs => p = c && isPrefixB ps cs

/-- C `strstr(hay, pat) != NULL`: pat occurs as a contiguous substring of hay. -/
def containsSub (pat : List Char) : List Char → Bool
  | [] => isPrefixB pat []
  | c :: cs => isPrefixB pat (c :: cs) || containsSub pat cs

/-- Index of the first occurrence of pat in hay (C `strstr`, as an offset). -/
def findSubIdx (pat : List Char) : List Char → Option Nat
  | [] => if isPrefixB pat [] then some 0 else none
  | c :: cs =>
    if isPrefixB pat (c :: cs) then some 0
    else match findSubIdx pat cs with
      | some i => some (i + 1)
      | none => none

/-- Index of the last occurrence of character c (C `strrchr`, as an offset). -/
def lastIdxOf (c : Char) (l : List Char) : Option Nat :=
  match l with
  | [] => none
  | x :: xs =>
    match lastIdxOf c xs with
    | some i => some (i + 1)
    | none => if x = c then some 0 else none

/-- Strip trailing characters satisfying `isspaceB` (the trailing-whitespace
trim loop of the If-None-Match token cleaner). -/
def trimTrailing (l : List Char) : List Char :=
  (l.reverse.dropWhile isspaceB).reverse

/-- Decimal rendering of a Nat, digit characters only (C printf %zu / %ld on
the nonnegative values that arise here). -/
def natToDec (n : Nat) : List Char :=
  (Nat.toDigits 10 n)

/-- Lowercase hexadecimal digit for a value below 16 (C printf %lx digits). -/
def hexDigit (n : Nat) : Char :=
  if n < 10 then Char.ofNat ('0'.toNat + n) else Char.ofNat ('a'.toNat + (n - 10))

/-- Digit accumulator for `toHex`; the fuel argument only bounds the
recursion (any fuel of at least the digit count gives the full rendering). -/
def toHexAux : Nat → Nat → List Char → List Char
  | 0, _, acc => acc
  | fuel + 1, n, acc =>
    if n < 16 then hexDigit n :: acc
    else toHexAux fuel (n / 16) (hexDigit (n % 16) :: acc)

/-- Lowercase hexadecimal rendering of a Nat (C printf %lx). -/
def toHex (n : Nat) : List Char := toHexAux (n + 1) n []

/-- The ETag the server derives: `snprintf(etag, 64, "\"%lx-%lx-%lx\"", ino,
size, mtime)` at src/src/http.c:499-504 and 1049-1053. -/
def mkEtag (ino size mtime : Nat) : List Char :=
  '"' :: (toHex ino ++ '-' :: toHex size ++ '-' :: toHex mtime) ++ ['"']

/- ------------------------------------------------------------------ -/
/- MIME table and lookup: src/src/http.c:19-36 and 370-381.           -/
/- ------------------------------------------------------------------ -/

/-- The `mime_types` table of src/src/http.c:19-36, without its NULL
sentinel row (whose type field, "application/octet-stream", the lookup
below never returns: both default paths return `mime_types[0].type`). -/
def mime_types : List (List Char × List Char) :=
  [ (str ".html", str "text/html"),
    (str ".htm", str "text/html"),
    (str ".css", str "text/css"),
    (str ".js", str "application/javascript"),
    (str ".json", str "application/json"),
    (str ".png", str "image/png"),
    (str ".jpg", str "image/jpeg"),
    (str ".jpeg", str "image/jpeg"),
    (str ".gif", str "image/gif"),
    (str ".ico", str "image/x-icon"),
    (str ".txt", str "text/plain"),
    (str ".pdf", str "application/pdf") ]

/-- `http_get_mime_type` (src/src/http.c:370-381).  `strrchr(path, '.')`
finds the last dot; a path without one, or with an extension missing from
the table, yields `mime_types[0].type`, i.e. "text/html". -/
def http_get_mime_type (path : List Char) : List Char :=
  match lastIdxOf '.' path with
  | none => (str ".html", str "text/html").2
  | some i =>
    let ext := path.drop i
    match mime_types.find? (fun row => strCaseEq ext row.1) with
    | some row => row.2
    | none => (str ".html", str "text/html").2

/-- `compressible_types` prefix table of `http_should_compress_mime_type`
(src/src/http.c:1295-1322). -/
def compressible_types : List (List Char) :=
  [ str "text/",
    str "application/javascript",
    str "application/json",
    str "application/xml",
    str "application/xhtml+xml",
    str "image/svg+xml",
    str "application/x-font-ttf",
    str "application/x-font-opentype",
    str "application/vnd.ms-fontobject",
    str "application/font-woff",
    str "application/font-woff2" ]

/-- Case-insensitive prefix test (C `strncasecmp(a, b, strlen(b)) == 0`). -/
def caseIsPrefixB (pat l : List Char) : Bool :=
  isPrefixB (pat.map lowerChar) (l.map lowerChar)

/-- `http_should_compress_mime_type` (src/src/http.c:1295-1322). -/
def http_should_compress_mime_type (mime : List Char) : Bool :=
  compressible_types.any (fun p => caseIsPrefixB p mime)

/- ------------------------------------------------------------------ -/
/- Content-encoding negotiation and vary key:                          -/
/- src/src/http.c:1324-1346 and 127-157.                               -/
/- ------------------------------------------------------------------ -/

inductive CompressionType where
  | none
  | gzip
  | deflate
deriving DecidableEq, Repr

/-- `http_negotiate_compression` (src/src/http.c:1324-1346): walk every
header; on an Accept-Encoding header return gzip if its value contains
"gzip", else deflate if it contains "deflate"; otherwise keep scanning
the remaining headers (the loop has no break). -/
def http_negotiate_compression : List (List Char × List Char) → CompressionType
  | [] => .none
  | (n, v) :: rest =>
    if strCaseEq n (str "Accept-Encoding") then
      if containsSub (str "gzip") v then .gzip
      else if containsSub (str "deflate") v then .deflate
      else http_negotiate_compression rest
    else http_negotiate_compression rest

/-- The encoding tag `generate_vary_key` appends for the first
Accept-Encoding header (src/src/http.c:136-149); `Option.none` when the
request has no Accept-Encoding header. -/
def varyTag : List (List Char × List Char) → Option (List Char)
  | [] => Option.none
  | (n, v) :: rest =>
    if strCaseEq n (str "Accept-Encoding") then
      if containsSub (str "gzip") v then some (str "gzip")
      else if containsSub (str "deflate") v then some (str "deflate")
      else some (str "none")
    else varyTag rest

/-- The overall encoding tag of the vary key: the tag of the first
Accept-Encoding header, or "none" supplied by the fix-up at
src/src/http.c:151-156 when no such header exists. -/
def varyTagOf (headers : List (List Char × List Char)) : List Char :=
  match varyTag headers with
  | some t => t
  | Option.none => str "none"

/-- `generate_vary_key` (src/src/http.c:127-157).  The C key buffer is 256
bytes, so every `snprintf` there truncates to 255 content characters; the
final fix-up appends "none" when the key still ends in the ':' separator
and four more characters fit. -/
def generate_vary_key (path : List Char) (request : Option (List (List Char × List Char))) :
    List Char :=
  match request with
  | Option.none => path.take 255
  | some headers =>
    let key := (path ++ [':']).take 255
    let key :=
      match varyTag headers with
      | some t => key ++ t.take (255 - key.length)
      | Option.none => key
    if key.contains ':' ∧ key.getLast? = some ':' ∧ key.length + 4 < 256 then
      key ++ str "none"
    else key

/- ------------------------------------------------------------------ -/
/- Response cache lookup: src/src/http.c:58-76 and 159-204.            -/
/- ------------------------------------------------------------------ -/

/-- `CACHE_SIZE` (src/src/http.c:38). -/
def CACHE_SIZE : Nat := 10000

/-- `CACHE_TIMEOUT` (src/src/http.c:39), the cache TTL in seconds. -/
def CACHE_TIMEOUT : Int := 3600

/-- `hash_key` (src/src/http.c:58-65): djb2 over the key bytes with
32-bit unsigned wraparound, reduced modulo the table size `n`
(`CACHE_SIZE` in the source; kept as a parameter so small tables can be
evaluated in witnesses). -/
def hash_key (n : Nat) (key : List Char) : Nat :=
  (key.foldl (fun h c => (h * 33 + c.toNat) % 4294967296) 5381) % n

/-- `cache_entry_t` (src/src/http.c:67-74).  An empty slot has
`path = []` (the C test `path[0] != '\0'`). -/
structure CacheEntry where
  path : List Char
  response : List Char
  timestamp : Int
  vary_key : List Char
  etag : List Char
deriving DecidableEq, Repr

instance : Inhabited CacheEntry := ⟨⟨[], [], 0, [], []⟩⟩

/-- Hit condition used both by the hash probe and by the linear sweep of
`find_cached_response` (src/src/http.c:170-173 and 189-192): slot in
use, path equal, vary key equal, and age strictly below the TTL. -/
def entryMatches (e : CacheEntry) (path key : List Char) (now : Int) : Bool :=
  e.path ≠ [] && e.path = path && e.vary_key = key && now - e.timestamp < CACHE_TIMEOUT

/-- The fallback linear sweep of `find_cached_response`
(src/src/http.c:181-199): indices 0..n-1 in order, skipping the already
probed hash slot.  `fuel` counts the remaining indices. -/
def find_linear (ents : Nat → CacheEntry) (path key : List Char) (now : Int)
    (skip : Nat) : Nat → Nat → Option CacheEntry
  | _, 0 => Option.none
  | i, fuel + 1 =>
    if i = skip then find_linear ents path key now skip (i + 1) fuel
    else if entryMatches (ents i) path key now then some (ents i)
    else find_linear ents path key now skip (i + 1) fuel

/-- `find_cached_response` (src/src/http.c:159-204) over a table of size
`n` (the source fixes `n = CACHE_SIZE`).  The `cleanup_expired_cache_entries`
call it makes first only erases entries whose age is at least the TTL —
entries the hit conditions below reject anyway — so it cannot change the
lookup's result and is not modelled.  The repeated `time(NULL)` reads are
modelled by the single instant `now`. -/
def find_cached_response (n : Nat) (ents : Nat → CacheEntry) (path : List Char)
    (headers : List (List Char × List Char)) (now : Int) : Option CacheEntry :=
  let key := generate_vary_key path (some headers)
  let h := hash_key n key
  if entryMatches (ents h) path key now then some (ents h)
  else find_linear ents path key now h 0 n

/- ------------------------------------------------------------------ -/
/- Path validation: src/src/http.c:799-891.                            -/
/- ------------------------------------------------------------------ -/

/-- `PATH_MAX` on the target platform (limits.h), the size of every path
buffer in `validate_and_resolve_path`. -/
def PATH_MAX : Nat := 4096

/-- The root-prefix test of `validate_and_resolve_path`
(src/src/http.c:839-844 and 873-879): `strncmp(p, root, strlen(root)) == 0`
and the character after the prefix is end-of-string or '/'. -/
def rootPrefixOk (root p : List Char) : Bool :=
  isPrefixB root p && (p.length = root.length || p.get? root.length = some '/')

/-- The candidate-canonicalization phase of `validate_and_resolve_path`
(src/src/http.c:818-865): canonicalize `temp_path` with `realpath`; when
the candidate does not exist, canonicalize its parent directory (checking
it against the canonical root) and re-append the final component; when
the candidate has no '/' at all, fall back to the raw concatenation after
checking the root resolves. -/
def resolve_candidate (realpath : List Char → Option (List Char))
    (root_dir temp_path : List Char) : Option (List Char) :=
  match realpath temp_path with
  | some cp => some cp
  | Option.none =>
    match lastIdxOf '/' temp_path with
    | some si =>
      match realpath (temp_path.take si) with
      | Option.none => Option.none
      | some canonical_dir =>
        match realpath root_dir with
        | Option.none => Option.none
        | some canonical_root =>
          if rootPrefixOk canonical_root canonical_dir then
            if PATH_MAX ≤ canonical_dir.length + 1 + (temp_path.drop (si + 1)).length then
              Option.none
            else some (canonical_dir ++ '/' :: temp_path.drop (si + 1))
          else Option.none
    | Option.none =>
      match realpath root_dir with
      | Option.none => Option.none
      | some _ => some temp_path

/-- `validate_and_resolve_path` (src/src/http.c:799-891).  `realpath` is
the libc canonicalizer, supplied as an oracle (`Option.none` models a NULL
return).  The embedded-NUL check at line 806 compares `strlen` with
`strcspn(path, "\0")`; the rejection set of that `strcspn` is the empty
string, so the two are always equal and the check can never reject — it
is therefore not modelled.  A `some` result is the C function storing the
canonical path and returning 0; `Option.none` is the C function returning -1. -/
def validate_and_resolve_path (realpath : List Char → Option (List Char))
    (root_dir request_path : List Char) : Option (List Char) :=
  if containsSub (str "..") request_path then Option.none
  else if PATH_MAX ≤ (root_dir ++ request_path).length then Option.none
  else
    match resolve_candidate realpath root_dir (root_dir ++ request_path) with
    | Option.none => Option.none
    | some canonical_path =>
      match realpath root_dir with
      | Option.none => Option.none
      | some canonical_root =>
        if rootPrefixOk canonical_root canonical_path then
          if PATH_MAX ≤ canonical_path.length then Option.none
          else some canonical_path
        else Option.none

/- ------------------------------------------------------------------ -/
/- Request parsing: src/src/http.c:274-339.                            -/
/- ------------------------------------------------------------------ -/

/-- `MAX_HEADERS`.  Modelled from the spec: the header array bound of the
request and response structures declared in the missing http.h ("up to
MAX_HEADERS (256) entries"). -/
def MAX_HEADERS : Nat := 256

/-- `MAX_HEADER_SIZE`.  Modelled from the spec: the per-header buffer
size declared in the missing http.h ("longer header values are truncated
at MAX_HEADER_SIZE (8 KiB)"). -/
def MAX_HEADER_SIZE : Nat := 8192

/-- `http_request_t` as used by src/src/http.c (its declaration lives in
the missing http.h; field sizes follow the spec's parsing contract). -/
structure Request where
  method : List Char
  uri : List Char
  version : List Char
  headers : List (List Char × List Char)
  keep_alive : Bool
deriving DecidableEq, Repr

/-- One `%Ns` conversion of `sscanf`: skip leading whitespace, then take at
most `maxLen` non-whitespace characters, leaving the rest of the word in
the input.  Fails only when no character at all is available. -/
def scanToken (maxLen : Nat) (l : List Char) : Option (List Char × List Char) :=
  let l' := l.dropWhile isspaceB
  let tok := (l'.takeWhile (fun c => ¬ isspaceB c)).take maxLen
  if tok = [] then Option.none else some (tok, l'.drop tok.length)

/-- `strstr(buf + pos, "\r\n")` as an absolute offset from pos. -/
def findCrlfFrom (buf : List Char) (pos : Nat) : Option Nat :=
  match findSubIdx (str "\r\n") (buf.drop pos) with
  | some i => some (pos + i)
  | Option.none => Option.none

/-- The header loop of `http_parse_request` (src/src/http.c:295-318).
`buf` is the whole NUL-terminated string the C pointers walk (the request
bytes and whatever follows them in the connection buffer), `len` the
`length` argument bounding the loop, `pos` the current `line_start`
offset.  Each iteration locates the next "\r\n"; a line that is empty
ends the loop; `strchr(line_start, ':')` searches from `line_start` to
the end of the whole string (it is not limited to the current line), and
when it finds a colon the name is everything before it and the value is
everything after it (leading spaces skipped) up to the end of the string,
each truncated to MAX_HEADER_SIZE - 1 bytes — the C code never cuts the
copies at the line's "\r\n". -/
def parseHeaders (buf : List Char) (len : Nat) : Nat → Nat →
    List (List Char × List Char)
  | _, 0 => []
  | pos, fuel + 1 =>
    if pos < len then
      match findCrlfFrom buf pos with
      | Option.none => []
      | some lineEnd =>
        if lineEnd = pos then []
        else
          let rest := buf.drop pos
          let entry : List (List Char × List Char) :=
            match findSubIdx [':'] rest with
            | Option.none => []
            | some ci =>
              let name := (rest.take ci).take (MAX_HEADER_SIZE - 1)
              let value := ((rest.drop (ci + 1)).dropWhile (· = ' ')).take
                (MAX_HEADER_SIZE - 1)
              [(name, value)]
          entry ++ parseHeaders buf len (lineEnd + 2) fuel
    else []

/-- `http_parse_request` (src/src/http.c:274-339).  `buffer` holds the
full NUL-terminated connection data starting at the request, `length` the
length argument.  A `some` result is the function returning 0 with the
filled request; `Option.none` is the single failure return -1 (missing
"\r\n" or fewer than three request-line tokens).  The C function has no
other error returns.  The header-count cap MAX_HEADERS is modelled by the
fuel of `parseHeaders` being `length` (the loop advances at least two
characters per iteration, so the position bound is the tighter one for
the requests considered here, and a 256-headers request never arises in
the claims). -/
def http_parse_request (buffer : List Char) (length : Nat) : Option Request :=
  match findCrlfFrom buffer 0 with
  | Option.none => Option.none
  | some _ =>
    match scanToken 15 buffer with
    | Option.none => Option.none
    | some (method, r1) =>
      match scanToken 2047 r1 with
      | Option.none => Option.none
      | some (uri, r2) =>
        match scanToken 15 r2 with
        | Option.none => Option.none
        | some (version, _) =>
          match findCrlfFrom buffer 0 with
          | Option.none => Option.none
          | some le =>
            let headers := parseHeaders buffer length (le + 2) length
            let ka0 := version = str "HTTP/1.1"
            let ka :=
              match headers.find? (fun h => strCaseEq h.1 (str "Connection")) with
              | some h =>
                if strCaseEq h.2 (str "close") then false
                else if strCaseEq h.2 (str "keep-alive") then true
                else ka0
              | Option.none => ka0
            some ⟨method, uri, version, headers, ka⟩

/-- `http_should_keep_alive` (src/src/http.c:573-604). -/
def http_should_keep_alive (req : Request) : Bool :=
  if req.version = str "HTTP/1.1" then
    match req.headers.find? (fun h => strCaseEq h.1 (str "Connection")) with
    | some h => ¬ strCaseEq h.2 (str "close")
    | Option.none => true
  else if req.version = str "HTTP/1.0" then
    match req.headers.find? (fun h => strCaseEq h.1 (str "Connection")) with
    | some h => strCaseEq h.2 (str "keep-alive")
    | Option.none => false
  else false

/- ------------------------------------------------------------------ -/
/- Responses: src/src/http.c:5-17, 341-368, 383-571, 893-1293.         -/
/- ------------------------------------------------------------------ -/

/-- `status_messages` (src/src/http.c:5-17). -/
def status_messages : List (Nat × List Char) :=
  [ (200, str "OK"),
    (400, str "Bad Request"),
    (403, str "Forbidden"),
    (404, str "Not Found"),
    (500, str "Internal Server Error"),
    (501, str "Not Implemented"),
    (505, str "HTTP Version Not Supported") ]

/-- `http_response_t` as used by src/src/http.c (declared in the missing
http.h).  Body sources are abstracted to the data the claims touch:
`has_body`/`body_length` for the malloc'd in-memory body, `is_file` for
the zero-copy file descriptor, `is_cached`/`cached_response` for a
borrowed cache blob, and the compression fields.  `status_text` is
`Option.none` while the C pointer is NULL. -/
structure Response where
  status_code : Nat
  status_text : Option (List Char)
  headers : List (List Char × List Char)
  keep_alive : Bool
  body_length : Nat
  is_file : Bool
  is_cached : Bool
  cached_response : Option (List Char)
  has_body : Bool
  compression_type : CompressionType
  has_compressed_body : Bool
  compressed_length : Nat
deriving DecidableEq, Repr

/-- `http_add_header` (src/src/http.c:362-368): append, capped at
MAX_HEADERS entries; name and value truncated to MAX_HEADER_SIZE - 1. -/
def http_add_header (r : Response) (name value : List Char) : Response :=
  if r.headers.length < MAX_HEADERS then
    { r with headers :=
        r.headers ++ [(name.take (MAX_HEADER_SIZE - 1), value.take (MAX_HEADER_SIZE - 1))] }
  else r

/-- `http_create_response` (src/src/http.c:341-360): zero the response,
set the status, look up the reason phrase, and add the Server header. -/
def http_create_response (status_code : Nat) : Response :=
  http_add_header
    { status_code := status_code
      status_text := (status_messages.find? (fun p => p.1 = status_code)).map (·.2)
      headers := []
      keep_alive := false
      body_length := 0
      is_file := false
      is_cached := false
      cached_response := Option.none
      has_body := false
      compression_type := .none
      has_compressed_body := false
      compressed_length := 0 }
    (str "Server") (str "NxLite")

/-- The `stat`/`fstat` data the server consumes: inode, size and mtime
(each later printed with %lx after a cast to unsigned long, hence Nat). -/
structure StatRec where
  st_ino : Nat
  st_size : Nat
  st_mtime : Nat
deriving DecidableEq, Repr

/-- The environment of oracles a request handling run consumes: the
filesystem and libc effects, the shared response-cache table, the
configuration values read from `config_get_instance`, and the success of
each fallible allocation/compression step inside `http_serve_file`. -/
structure HandlerEnv where
  /-- libc `realpath`; `Option.none` is a NULL return. -/
  realpath : List Char → Option (List Char)
  /-- `config->root_dir`. -/
  root_dir : List Char
  /-- Response-cache table size (`CACHE_SIZE` in the source; a parameter
  here so concrete instances stay evaluable). -/
  cache_size : Nat
  /-- The response-cache slots. -/
  cache : Nat → CacheEntry
  /-- The current time (`time(NULL)`). -/
  now : Int
  /-- `stat(file_path, &st)` in `http_handle_request`; `Option.none` is a
  -1 return. -/
  statPath : List Char → Option StatRec
  /-- `open` + `fstat` + `S_ISREG` in `http_serve_file`; `Option.none`
  models any of the three failing. -/
  openStat : List Char → Option StatRec
  /-- `strptime` + `mktime` + timezone adjustment for If-Modified-Since;
  `Option.none` models an unparsable date. -/
  parseDate : List Char → Option Int
  /-- `strftime(.., "%a, %d %b %Y %H:%M:%S GMT", gmtime(t))`. -/
  formatTime : Nat → List Char
  /-- `config->keep_alive_timeout`. -/
  keep_alive_timeout : Nat
  /-- `malloc(st.st_size)` success inside `http_serve_file`. -/
  allocOk : Bool
  /-- `pread` returning the full size inside `http_serve_file`. -/
  readOk : Bool
  /-- `http_compress_content` returning 0 (zlib succeeding). -/
  compressOk : Bool
  /-- The resulting `compressed_length` when compression succeeds. -/
  compressedLen : Nat

/-- Compression level constants (zlib levels; declared in the missing
compress.h, values fixed by zlib: Z_BEST_SPEED 1 .. Z_BEST_COMPRESSION 9,
default 6 per the spec's compressor table). -/
def COMPRESSION_LEVEL_MIN : Nat := 1

def COMPRESSION_LEVEL_DEFAULT : Nat := 6

def COMPRESSION_LEVEL_MAX : Nat := 9

/-- The compression-level selection repeated at src/src/http.c:430-444 and
1238-1252: default for html/css/js, minimum for images and octet-stream,
maximum for fonts and svg. -/
def pickCompressionLevel (mime : List Char) : Nat :=
  if caseIsPrefixB (str "text/html") mime ∨ caseIsPrefixB (str "text/css") mime ∨
      caseIsPrefixB (str "application/javascript") mime then
    COMPRESSION_LEVEL_DEFAULT
  else if caseIsPrefixB (str "image/") mime ∨
      caseIsPrefixB (str "application/octet-stream") mime then
    COMPRESSION_LEVEL_MIN
  else if caseIsPrefixB (str "application/font") mime ∨
      caseIsPrefixB (str "image/svg+xml") mime then
    COMPRESSION_LEVEL_MAX
  else COMPRESSION_LEVEL_DEFAULT

/-- `http_compress_content` (src/src/http.c:1348-1437), with zlib's
behaviour supplied by the environment.  A `some` result is the function
returning 0 (the response now carrying a compressed body of
`env.compressedLen` bytes); `Option.none` is a -1 return. -/
def http_compress_content (env : HandlerEnv) (r : Response)
    (ty : CompressionType) : Option Response :=
  if ¬ r.has_body ∨ r.body_length = 0 then Option.none
  else if r.has_compressed_body then some r
  else if ty = .none then Option.none
  else if env.compressOk then
    some { r with has_compressed_body := true, compressed_length := env.compressedLen,
                  compression_type := ty }
  else Option.none

/-- The Cache-Control selection by extension at src/src/http.c:508-531. -/
def cacheControlFor (ext : List Char) : List Char :=
  if strCaseEq ext (str ".css") ∨ strCaseEq ext (str ".js") then
    str "public, max-age=86400, must-revalidate"
  else if strCaseEq ext (str ".png") ∨ strCaseEq ext (str ".jpg") ∨
      strCaseEq ext (str ".jpeg") ∨ strCaseEq ext (str ".gif") ∨
      strCaseEq ext (str ".ico") then
    str "public, max-age=604800, immutable"
  else if strCaseEq ext (str ".html") ∨ strCaseEq ext (str ".htm") then
    str "public, max-age=300, must-revalidate"
  else if strCaseEq ext (str ".pdf") ∨ strCaseEq ext (str ".doc") ∨
      strCaseEq ext (str ".docx") then
    str "public, max-age=86400"
  else str "public, max-age=3600"

/-- `http_serve_file` (src/src/http.c:383-571).  A `some` result is the 0
return with the updated response; `Option.none` is -1 (open/fstat failure
or not a regular file, via `env.openStat`).  The write-back into the
response cache at lines 532-565 only mutates the global cache table, not
the response, and is not modelled here. -/
def http_serve_file (env : HandlerEnv) (path : List Char) (r : Response) :
    Option Response :=
  let full_path := if path.getLast? = some '/' then path ++ str "index.html" else path
  match env.openStat full_path with
  | Option.none => Option.none
  | some st =>
    let mime := http_get_mime_type full_path
    let r := http_add_header r (str "Content-Type") mime
    let is_compressible := http_should_compress_mime_type mime
    let r :=
      if is_compressible ∧ r.compression_type ≠ .none ∧
          st.st_size ≤ 10 * 1024 * 1024 then
        if env.allocOk then
          if env.readOk then
            let r := { r with has_body := true, body_length := st.st_size,
                              is_file := false }
            match http_compress_content env r r.compression_type with
            | some r' =>
              let r' :=
                if r'.compression_type = .gzip then
                  http_add_header r' (str "Content-Encoding") (str "gzip")
                else if r'.compression_type = .deflate then
                  http_add_header r' (str "Content-Encoding") (str "deflate")
                else r'
              http_add_header r' (str "Content-Length") (natToDec r'.compressed_length)
            | Option.none =>
              http_add_header r (str "Content-Length") (natToDec r.body_length)
          else
            http_add_header { r with body_length := st.st_size, is_file := true }
              (str "Content-Length") (natToDec st.st_size)
        else
          http_add_header { r with body_length := st.st_size, is_file := true }
            (str "Content-Length") (natToDec st.st_size)
      else
        http_add_header { r with body_length := st.st_size, is_file := true }
          (str "Content-Length") (natToDec st.st_size)
    let r := http_add_header r (str "Last-Modified") (env.formatTime st.st_mtime)
    let r := http_add_header r (str "ETag") (mkEtag st.st_ino st.st_size st.st_mtime)
    let r := http_add_header r (str "Vary") (str "Accept-Encoding, User-Agent")
    let r :=
      match lastIdxOf '.' full_path with
      | some i => http_add_header r (str "Cache-Control") (cacheControlFor (full_path.drop i))
      | Option.none =>
        http_add_header r (str "Cache-Control") (str "no-cache, no-store, must-revalidate")
    some r

/- ------------------------------------------------------------------ -/
/- If-None-Match evaluation: src/src/http.c:935-998 and 1058-1121.     -/
/- ------------------------------------------------------------------ -/

/-- Split helper mirroring `strtok(s, ",")`: cut at every ',' . -/
def splitAtComma : List Char → List Char → List (List Char)
  | [], acc => [acc.reverse]
  | c :: rest, acc =>
    if c = ',' then acc.reverse :: splitAtComma rest []
    else splitAtComma rest (c :: acc)

/-- `strtok(s, ",")` iterated to exhaustion: the non-empty
comma-separated segments of s, in order. -/
def strtokComma (s : List Char) : List (List Char) :=
  (splitAtComma s []).filter (· ≠ [])

/-- Strip a server ETag of its enclosing quotes the way both comparison
blocks do (src/src/http.c:976-988 and 1099-1111): if it starts with '"',
the cleaned form is what lies before the last remaining '"' (empty when
no closing quote exists); otherwise the ETag truncated to 63 bytes. -/
def cleanServerEtag (etag : List Char) : List Char :=
  if etag.head? = some '"' then
    match lastIdxOf '"' etag.tail with
    | some e => etag.tail.take e
    | Option.none => []
  else etag.take 63

/-- The client-token quote stripper shared by both comparison blocks:
everything between the leading '"' and the last '"' (the C copies keep at
most 255 bytes of an unterminated or unquoted token). -/
def stripQuotes255 (t : List Char) : List Char :=
  if t.head? = some '"' then
    match lastIdxOf '"' t.tail with
    | some e => t.tail.take e
    | Option.none => t.tail.take 255
  else t.take 255

/-- One If-None-Match token against the server ETag, transcribing the
loop body shared by src/src/http.c:942-998 and 1065-1121: skip leading
whitespace; "*" matches anything; strip an optional W/ prefix, then
enclosing quotes (everything after the last quote is dropped), then
trailing whitespace; compare with the equally stripped server ETag. -/
def tokenMatches (tok etag : List Char) : Bool :=
  if tok.dropWhile isspaceB = ['*'] then true
  else
    trimTrailing (stripQuotes255
      (if (tok.dropWhile isspaceB).take 2 = str "W/" then
        (tok.dropWhile isspaceB).drop 2
      else tok.dropWhile isspaceB)) = cleanServerEtag etag

/-- The whole If-None-Match comparison (tokens until the first match),
as used on the cache-hit path and on the fresh-stat path. -/
def ifNoneMatchMatches (value etag : List Char) : Bool :=
  (strtokComma value).any (fun t => tokenMatches t etag)

/-- First header with the given (case-insensitive) name, the pattern
`for i < header_count: if strcasecmp(name) == 0 break` of the source. -/
def findHeader (headers : List (List Char × List Char)) (name : List Char) :
    Option (List Char) :=
  (headers.find? (fun h => strCaseEq h.1 name)).map (·.2)

/- ------------------------------------------------------------------ -/
/- http_handle_request: src/src/http.c:893-1293.                       -/
/- ------------------------------------------------------------------ -/

/-- The cache-hit branch of `http_handle_request`
(src/src/http.c:921-1022). -/
def handleCacheHit (req : Request) (r : Response) (cache : CacheEntry)
    (is_head : Bool) : Response :=
  let matched :=
    match findHeader req.headers (str "If-None-Match") with
    | some v => ifNoneMatchMatches v cache.etag
    | Option.none => false
  if matched then
    let r := { r with status_code := 304, status_text := some (str "Not Modified"),
                      body_length := 0, is_cached := false }
    let r := http_add_header r (str "ETag") cache.etag
    { r with keep_alive := http_should_keep_alive req }
  else
    let r := { r with is_cached := true, cached_response := some cache.response,
                      body_length := cache.response.length,
                      keep_alive := http_should_keep_alive req }
    if is_head then { r with body_length := 0 } else r

/-- The fresh 304 branch for a matching If-None-Match
(src/src/http.c:1123-1154). -/
def handleFresh304 (req : Request) (r : Response) (etag : List Char)
    (file_path : List Char) : Response :=
  let r := { r with status_code := 304, status_text := some (str "Not Modified") }
  let r := http_add_header r (str "ETag") etag
  let r :=
    match lastIdxOf '.' file_path with
    | some i =>
      let ext := file_path.drop i
      if strCaseEq ext (str ".css") ∨ strCaseEq ext (str ".js") then
        http_add_header r (str "Cache-Control") (str "public, max-age=86400, must-revalidate")
      else if strCaseEq ext (str ".png") ∨ strCaseEq ext (str ".jpg") ∨
          strCaseEq ext (str ".jpeg") ∨ strCaseEq ext (str ".gif") ∨
          strCaseEq ext (str ".ico") then
        http_add_header r (str "Cache-Control") (str "public, max-age=604800, immutable")
      else if strCaseEq ext (str ".html") ∨ strCaseEq ext (str ".htm") then
        http_add_header r (str "Cache-Control") (str "public, max-age=300, must-revalidate")
      else
        http_add_header r (str "Cache-Control") (str "public, max-age=3600")
    | Option.none => r
  let r := http_add_header r (str "Vary") (str "Accept-Encoding, User-Agent")
  { r with keep_alive := http_should_keep_alive req }

/-- The If-Modified-Since 304 branch (src/src/http.c:1157-1214). -/
def handleIms304 (env : HandlerEnv) (req : Request) (r : Response)
    (etag : List Char) (st : StatRec) : Response :=
  let r := { r with status_code := 304, status_text := some (str "Not Modified") }
  let r := http_add_header r (str "ETag") etag
  let r := http_add_header r (str "Last-Modified") (env.formatTime st.st_mtime)
  let r := http_add_header r (str "Vary") (str "Accept-Encoding, User-Agent")
  { r with keep_alive := http_should_keep_alive req }

/-- The second compression attempt of `http_handle_request`
(src/src/http.c:1236-1277): compress an in-memory body, add the
Content-Encoding header for the negotiated type, and rewrite (or add) the
Content-Length header with the compressed length. -/
def applySecondCompression (env : HandlerEnv) (compression_type : CompressionType)
    (r : Response) : Response :=
  if compression_type ≠ .none ∧ ¬ r.is_file ∧ r.has_body ∧
      r.body_length > 0 ∧ ¬ r.has_compressed_body then
    match http_compress_content env r compression_type with
    | some r' =>
      let r' :=
        if compression_type = .gzip then
          http_add_header r' (str "Content-Encoding") (str "gzip")
        else if compression_type = .deflate then
          http_add_header r' (str "Content-Encoding") (str "deflate")
        else r'
      let cl := natToDec r'.compressed_length
      if (r'.headers.find? (fun h => strCaseEq h.1 (str "Content-Length"))).isSome then
        { r' with headers := r'.headers.map (fun h =>
            if strCaseEq h.1 (str "Content-Length") then
              (h.1, cl.take (MAX_HEADER_SIZE - 1))
            else h) }
      else http_add_header r' (str "Content-Length") cl
    | Option.none => r
  else r

/-- The Keep-Alive header hint of `http_handle_request`
(src/src/http.c:1279-1286). -/
def addKeepAliveHint (env : HandlerEnv) (r : Response) : Response :=
  if r.keep_alive then
    http_add_header r (str "Keep-Alive")
      (str "timeout=" ++ natToDec env.keep_alive_timeout)
  else r

/-- The fresh 200 tail of `http_handle_request`
(src/src/http.c:1216-1292): negotiate compression, serve the file, set
keep-alive, run the second compression attempt with the Content-Length
rewrite, add the Keep-Alive header, and suppress the body for HEAD. -/
def handleFresh200 (env : HandlerEnv) (req : Request) (r : Response)
    (file_path : List Char) (is_head : Bool) : Response :=
  let content_type := http_get_mime_type file_path
  let is_compressible := http_should_compress_mime_type content_type
  let compression_type :=
    if is_compressible then http_negotiate_compression req.headers else .none
  let r := { r with compression_type := compression_type }
  match http_serve_file env file_path r with
  | Option.none =>
    { r with status_code := 404, status_text := some (str "Not Found"),
             keep_alive := false }
  | some r =>
    let r := { r with keep_alive := http_should_keep_alive req }
    let r := applySecondCompression env compression_type r
    let r := addKeepAliveHint env r
    if is_head then { r with is_file := false, is_cached := false, body_length := 0 }
    else r

/-- `http_handle_request` (src/src/http.c:893-1293). -/
def http_handle_request (env : HandlerEnv) (req : Request) : Response :=
  let r := http_create_response 200
  if req.method ≠ str "GET" ∧ req.method ≠ str "HEAD" then
    { r with status_code := 501, status_text := some (str "Not Implemented"),
             keep_alive := false }
  else
    let is_head := req.method = str "HEAD"
    let request_path := if req.uri = str "/" then str "/index.html" else req.uri
    match validate_and_resolve_path env.realpath env.root_dir request_path with
    | Option.none =>
      { r with status_code := 403, status_text := some (str "Forbidden"),
               keep_alive := false }
    | some file_path =>
      match find_cached_response env.cache_size env.cache file_path req.headers env.now with
      | some cache => handleCacheHit req r cache is_head
      | Option.none =>
        match env.statPath file_path with
        | Option.none =>
          { r with status_code := 404, status_text := some (str "Not Found"),
                   keep_alive := false }
        | some st =>
          let etag := mkEtag st.st_ino st.st_size st.st_mtime
          let inmMatched :=
            match findHeader req.headers (str "If-None-Match") with
            | some v => ifNoneMatchMatches v etag
            | Option.none => false
          if inmMatched then handleFresh304 req r etag file_path
          else
            let imsMatched :=
              match findHeader req.headers (str "If-Modified-Since") with
              | some v =>
                match env.parseDate v with
                | some since => decide ((st.st_mtime : Int) - since ≤ 0)
                | Option.none => false
              | Option.none => false
            if imsMatched then
              handleIms304 env req r etag st
            else handleFresh200 env req r file_path is_head

/- ------------------------------------------------------------------ -/
/- Response rendering: src/src/http.c:606-655.                         -/
/- ------------------------------------------------------------------ -/

/-- The lines `http_send_response` assembles into `header_buffer` for a
non-cached response (src/src/http.c:632-654): the status line, one line
per stored header, and exactly one Connection line chosen by the
keep-alive flag.  (For `is_cached` responses the function instead sends
the cache blob verbatim and none of these lines.) -/
def renderLines (r : Response) : List (List Char) :=
  (str "HTTP/1.1 " ++ natToDec r.status_code ++ ' ' ::
    (match r.status_text with | some t => t | Option.none => str "Unknown"))
  :: (r.headers.map (fun h => h.1 ++ ':' :: ' ' :: h.2))
  ++ [if r.keep_alive then str "Connection: keep-alive" else str "Connection: close"]

/-- The rendered header block: each line followed by CRLF, then the
blank line. -/
def renderHeaders (r : Response) : List Char :=
  (renderLines r).foldr (fun l acc => l ++ '\r' :: '\n' :: acc) (str "\r\n")

/- ------------------------------------------------------------------ -/
/- Worker dispatch: src/unnamed/part_004:582-718.                      -/
/- ------------------------------------------------------------------ -/

/-- The per-request dispatch of `worker_handle_client_data`
(src/unnamed/part_004:623-661): frame at "\r\n\r\n", parse, and on parse
failure build an error response.  `http_parse_request` in src/src/http.c
returns only 0 or -1, so the caller's -2 (413) and -3 (505) branches at
part_004:639-651 are unreachable; the parse-failure response is always
the 400 one.  The result is the response handed to `http_send_response`
for the first request in the buffer. -/
def worker_dispatch_response (env : HandlerEnv) (buffer : List Char) :
    Option Response :=
  match findSubIdx (str "\r\n\r\n") buffer with
  | Option.none => Option.none
  | some i =>
    let req_len := i + 4
    match http_parse_request buffer req_len with
    | Option.none => some { http_create_response 400 with keep_alive := false }
    | some req => some (http_handle_request env req)

/- ------------------------------------------------------------------ -/
/- Rate limiter: src/unnamed/part_004:21-152.                          -/
/- ------------------------------------------------------------------ -/

/-- `RATE_LIMIT_WINDOW`.  Modelled from the spec: the request window in
seconds declared in the missing worker.h ("default 100 requests / 60 s"). -/
def RATE_LIMIT_WINDOW : Int := 60

/-- `RATE_LIMIT_MAX_REQUESTS`.  Modelled from the spec: the per-window
request threshold declared in the missing worker.h (default 100). -/
def RATE_LIMIT_MAX_REQUESTS : Nat := 100

/-- `MAX_VIOLATIONS_BEFORE_BAN`.  Modelled from the spec: the violation
count that triggers a ban, declared in the missing worker.h ("once
violations ≥ 5"). -/
def MAX_VIOLATIONS_BEFORE_BAN : Nat := 5

/-- `BAN_DURATION`.  Modelled from the spec: the ban length in seconds
declared in the missing worker.h ("default 600 s"). -/
def BAN_DURATION : Int := 600

/-- `MAX_CONCURRENT_CONNECTIONS_PER_IP`.  Modelled from the spec: the
per-IP concurrent-connection cap declared in the missing worker.h (the
spec names the cap but fixes no number; the claims do not depend on its
value, only on being below it). -/
def MAX_CONCURRENT_CONNECTIONS_PER_IP : Nat := 100

/-- `rate_limit_entry_t` (declared in the missing worker.h; field set
read off its uses in src/unnamed/part_004).  An unused slot has
`ip = []`. -/
structure RateEntry where
  ip : List Char
  window_start : Int
  request_count : Nat
  last_request : Int
  connection_count : Nat
  violation_count : Nat
  ban_until : Int
deriving DecidableEq, Repr

/-- `check_rate_limit` (src/unnamed/part_004:33-109) acting on the hash
slot of the ip.  `development_mode` short-circuits to admission; the
table indexing itself is irrelevant to the claims and the slot is passed
directly.  The result is (admitted, updated slot). -/
def check_rate_limit (development_mode : Bool) (e : RateEntry) (ip : List Char)
    (now : Int) : Bool × RateEntry :=
  if development_mode then (true, e)
  else if 0 < e.ban_until ∧ now < e.ban_until then (false, e)
  else
    let e := if 0 < e.ban_until ∧ e.ban_until ≤ now then
        { e with ban_until := 0, violation_count := 0 }
      else e
    if e.ip = [] ∨ e.ip ≠ ip ∨ RATE_LIMIT_WINDOW * 2 < now - e.window_start then
      (true, { e with ip := ip, window_start := now, request_count := 1,
                      last_request := now, connection_count := 1 })
    else if MAX_CONCURRENT_CONNECTIONS_PER_IP ≤ e.connection_count then (false, e)
    else if RATE_LIMIT_WINDOW ≤ now - e.window_start then
      (true, { e with window_start := now, request_count := 1, last_request := now,
                      connection_count := e.connection_count + 1 })
    else
      let e := { e with request_count := e.request_count + 1, last_request := now,
                        connection_count := e.connection_count + 1 }
      if RATE_LIMIT_MAX_REQUESTS < e.request_count then
        let e := { e with violation_count := e.violation_count + 1 }
        let e := if MAX_VIOLATIONS_BEFORE_BAN ≤ e.violation_count then
            { e with ban_until := now + BAN_DURATION }
          else e
        (false, e)
      else (true, e)

/-- `decrement_connection_count` (src/unnamed/part_004:111-128) acting on
the ip's hash slot. -/
def decrement_connection_count (e : RateEntry) (ip : List Char) : RateEntry :=
  if e.ip ≠ [] ∧ e.ip = ip ∧ 0 < e.connection_count then
    { e with connection_count := e.connection_count - 1 }
  else e

/- ------------------------------------------------------------------ -/
/- Connection lifecycle events: src/unnamed/part_004:398-429, 456-580. -/
/- ------------------------------------------------------------------ -/

/-- The observable resource actions of the worker's connection setup and
teardown code. -/
inductive ConnEvent where
  /-- `close(client_fd)`. -/
  | closeClient
  /-- `close(timer_fd)`. -/
  | closeTimer
  /-- `mempool_free` of the connection buffer. -/
  | freeBuffer
  /-- `decrement_connection_count(ip)` — the rate limiter release. -/
  | release
deriving DecidableEq, Repr

/-- The fallible steps of `worker_handle_connection`
(src/unnamed/part_004:456-580), in source order. -/
structure SetupEnv where
  soKeepaliveOk : Bool
  tcpNodelayOk : Bool
  sndbufOk : Bool
  rcvbufOk : Bool
  keepidleOk : Bool
  keepintvlOk : Bool
  keepcntOk : Bool
  nonblockOk : Bool
  epollAddClientOk : Bool
  timerCreateOk : Bool
  epollAddTimerOk : Bool
  bufferAllocOk : Bool
  atConnectionLimit : Bool
deriving DecidableEq, Repr

/-- `worker_handle_connection` (src/unnamed/part_004:456-580): the
boolean says whether the client was registered in `worker->clients`; the
events are the resource actions of the taken path.  No failure path calls
`decrement_connection_count`. -/
def worker_handle_connection (env : SetupEnv) : Bool × List ConnEvent :=
  if ¬ env.soKeepaliveOk then (false, [.closeClient])
  else if ¬ env.tcpNodelayOk then (false, [.closeClient])
  else if ¬ env.sndbufOk then (false, [.closeClient])
  else if ¬ env.rcvbufOk then (false, [.closeClient])
  else if ¬ env.keepidleOk then (false, [.closeClient])
  else if ¬ env.keepintvlOk then (false, [.closeClient])
  else if ¬ env.keepcntOk then (false, [.closeClient])
  else if ¬ env.nonblockOk then (false, [.closeClient])
  else if ¬ env.epollAddClientOk then (false, [.closeClient])
  else if ¬ env.timerCreateOk then (false, [.closeClient])
  else if ¬ env.epollAddTimerOk then (false, [.closeTimer, .closeClient])
  else if ¬ env.bufferAllocOk then (false, [.closeTimer, .closeClient])
  else if env.atConnectionLimit then (false, [.freeBuffer, .closeTimer, .closeClient])
  else (true, [])

/-- `worker_remove_client` (src/unnamed/part_004:398-429) for a
registered client: epoll removals, exactly one
`decrement_connection_count`, buffer free, closes. -/
def worker_remove_client_events : List ConnEvent :=
  [.release, .freeBuffer, .closeClient, .closeTimer]

/-- The lifetime of one admitted connection: the accept loop of
`worker_run` (src/unnamed/part_004:903-913) has already admitted it
through `check_rate_limit`; `worker_handle_connection` then either
registers it — after which each of the close paths in the source (normal
close, keep-alive timeout, slow-loris eviction, hangup, socket error,
send failure) goes through `worker_remove_client` — or fails setup and
closes the socket inline. -/
def admitted_connection_events (env : SetupEnv) : List ConnEvent :=
  let (registered, evs) := worker_handle_connection env
  evs ++ (if registered then worker_remove_client_events else [])

/-- Count of rate-limiter releases in a trace. -/
def releaseCount (evs : List ConnEvent) : Nat :=
  evs.countP (· = .release)

/- ------------------------------------------------------------------ -/
/- Concrete instances for evaluation.                                  -/
/- ------------------------------------------------------------------ -/

/-- Unpack a dispatch result (a parse-failure 500 placeholder is never
reached in the scenarios below, which all dispatch successfully). -/
def respOf (o : Option Response) : Response := o.getD (http_create_response 500)

/-- A concrete environment: document root "/r" containing a regular file
/r/index.html with inode 0x10, size 1, mtime 0x20; identity `realpath`
(no symlinks); empty response cache (a small table keeps kernel
evaluation feasible — no claim depends on the table size). -/
def envA : HandlerEnv :=
  { realpath := fun s => some s
    root_dir := str "/r"
    cache_size := 8
    cache := fun _ => default
    now := 1000
    statPath := fun p => if p = str "/r/index.html" then some ⟨16, 1, 32⟩ else Option.none
    openStat := fun p => if p = str "/r/index.html" then some ⟨16, 1, 32⟩ else Option.none
    parseDate := fun _ => Option.none
    formatTime := fun _ => str "Thu, 01 Jan 1970 00:00:00 GMT"
    keep_alive_timeout := 60
    allocOk := true
    readOk := true
    compressOk := true
    compressedLen := 42 }

/-- All setup steps of `worker_handle_connection` succeeding. -/
def setupAllOk : SetupEnv :=
  ⟨true, true, true, true, true, true, true, true, true, true, true, true, false⟩

/-- Setup in which `mempool_alloc` returns NULL for the client buffer
(src/unnamed/part_004:538-544). -/
def setupBufferFail : SetupEnv :=
  ⟨true, true, true, true, true, true, true, true, true, true, true, false, false⟩

/-- Number of Accept-Encoding headers a request carries (the negotiation
loop inspects every one; the vary key only the first). -/
def countAE (hs : List (List Char × List Char)) : Nat :=
  hs.countP (fun p => strCaseEq p.1 (str "Accept-Encoding"))

/-- The wire tag of a negotiated compression type. -/
def encOf : CompressionType → List Char
  | .gzip => str "gzip"
  | .deflate => str "deflate"
  | .none => str "none"

/-- Every header name the response pipeline ever adds
(`http_create_response`, `http_serve_file`, `http_handle_request`). -/
def responseHeaderNames : List (List Char) :=
  [ str "Server", str "Content-Type", str "Content-Encoding", str "Content-Length",
    str "Last-Modified", str "ETag", str "Vary", str "Cache-Control", str "Keep-Alive" ]

/-- The header names a 304 Not Modified response can carry: no
Content-Length among them. -/
def names304 : List (List Char) :=
  [ str "Server", str "ETag", str "Last-Modified", str "Vary", str "Cache-Control" ]

/-- The response-header well-formedness the renderer relies on: the
Server header added by `http_create_response` is still the first header,
and every header name is drawn from `names`. -/
def HeadersShape (names : List (List Char)) (r : Response) : Prop :=
  r.headers.head? = some (str "Server", str "NxLite") ∧ r.headers ≠ [] ∧
  ∀ p ∈ r.headers, p.1 ∈ names

/- ================================================================== -/
/- Lemma toolkit.                                                      -/
/- ================================================================== -/

theorem dropWhile_eq_self_of_all (p : Char → Bool) (l : List Char)
    (h : ∀ c ∈ l, p c = false) : l.dropWhile p = l := by
  cases l with
  | nil => rfl
  | cons c cs => simp [List.dropWhile, h c (by simp)]

theorem trimTrailing_eq_self (l : List Char) (h : ∀ c ∈ l, isspaceB c = false) :
    trimTrailing l = l := by
  unfold trimTrailing
  rw [dropWhile_eq_self_of_all _ _ (fun c hc => h c (List.mem_reverse.mp hc)),
    List.reverse_reverse]

theorem isPrefixB_append_take (pat l rest : List Char)
    (h : isPrefixB pat (l ++ rest) = true) :
    isPrefixB (pat.take l.length) l = true := by
  induction l generalizing pat with
  | nil => simp [isPrefixB]
  | cons c cs ih =>
    cases pat with
    | nil => simp [isPrefixB]
    | cons p ps =>
      simp only [List.cons_append, isPrefixB, Bool.and_eq_true] at h
      simp [isPrefixB, h.1, ih ps h.2]

theorem lastIdxOf_append_singleton (c : Char) (l : List Char) (h : c ∉ l) :
    lastIdxOf c (l ++ [c]) = some l.length := by
  induction l with
  | nil => simp [lastIdxOf]
  | cons x xs ih =>
    have hx : x ≠ c := by rintro rfl; exact h (by simp)
    have hxs : c ∉ xs := fun hm => h (by simp [hm])
    simp [lastIdxOf, ih hxs]

theorem splitAtComma_append (xs ys acc : List Char) :
    splitAtComma (xs ++ ',' :: ys) acc =
      splitAtComma xs acc ++ splitAtComma ys [] := by
  induction xs generalizing acc with
  | nil => simp [splitAtComma]
  | cons c cs ih =>
    by_cases hc : c = ','
    · subst hc; simp [splitAtComma, ih]
    · simp [splitAtComma, hc, ih]

theorem splitAtComma_no_comma (l acc : List Char) (h : ',' ∉ l) :
    splitAtComma l acc = [acc.reverse ++ l] := by
  induction l generalizing acc with
  | nil => simp [splitAtComma]
  | cons c cs ih =>
    have hc : c ≠ ',' := by rintro rfl; exact h (by simp)
    have hcs : ',' ∉ cs := fun hm => h (by simp [hm])
    simp [splitAtComma, hc, ih _ hcs]

theorem strtokComma_single (l : List Char) (h : ',' ∉ l) (hne : l ≠ []) :
    strtokComma l = [l] := by
  unfold strtokComma
  rw [splitAtComma_no_comma l [] h]
  simp [hne]

theorem mem_strtokComma_last (w t : List Char) (h : ',' ∉ t) (hne : t ≠ []) :
    t ∈ strtokComma (w ++ ',' :: t) := by
  unfold strtokComma
  rw [splitAtComma_append, splitAtComma_no_comma t [] h]
  simp [hne]

/-- The characters printf %lx emits: lowercase hexadecimal digits. -/
def isHexChar (c : Char) : Bool :=
  ('0' ≤ c ∧ c ≤ '9') ∨ ('a' ≤ c ∧ c ≤ 'f')

theorem hexDigit_isHex (n : Nat) (h : n < 16) : isHexChar (hexDigit n) = true := by
  interval_cases n <;> decide

theorem toHexAux_isHex : ∀ (fuel n : Nat) (acc : List Char),
    (∀ c ∈ acc, isHexChar c = true) → ∀ c ∈ toHexAux fuel n acc, isHexChar c = true := by
  intro fuel
  induction fuel with
  | zero => intro n acc hacc c hc; exact hacc c hc
  | succ fuel ih =>
    intro n acc hacc c hc
    unfold toHexAux at hc
    by_cases h : n < 16
    · rw [if_pos h] at hc
      rcases List.mem_cons.mp hc with hc | hc
      · subst hc; exact hexDigit_isHex n h
      · exact hacc c hc
    · rw [if_neg h] at hc
      refine ih (n / 16) _ ?_ c hc
      intro c' hc'
      rcases List.mem_cons.mp hc' with hc' | hc'
      · subst hc'; exact hexDigit_isHex _ (Nat.mod_lt _ (by omega))
      · exact hacc c' hc'

theorem toHex_isHex (n : Nat) : ∀ c ∈ toHex n, isHexChar c = true :=
  toHexAux_isHex (n + 1) n [] (by simp)

theorem isHexChar_facts (c : Char) (h : isHexChar c = true) :
    c ≠ ',' ∧ c ≠ '"' ∧ c ≠ '*' ∧ isspaceB c = false := by
  simp only [isHexChar, decide_eq_true_eq] at h
  refine ⟨?_, ?_, ?_, ?_⟩
  · rintro rfl; revert h; decide
  · rintro rfl; revert h; decide
  · rintro rfl; revert h; decide
  · simp only [isspaceB, decide_eq_false_iff_not]
    rintro (rfl | rfl | rfl | rfl | rfl | rfl) <;> revert h <;> decide


/-- The unquoted interior of the derived ETag. -/
def etagBody (ino size mtime : Nat) : List Char :=
  toHex ino ++ '-' :: toHex size ++ '-' :: toHex mtime

theorem etagBody_chars (ino size mtime : Nat) :
    ∀ c ∈ etagBody ino size mtime, isHexChar c = true ∨ c = '-' := by
  intro c hc
  unfold etagBody at hc
  rcases List.mem_append.mp hc with h1 | h2
  · rcases List.mem_append.mp h1 with h3 | h4
    · exact Or.inl (toHex_isHex _ c h3)
    · rcases List.mem_cons.mp h4 with h5 | h6
      · exact Or.inr h5
      · exact Or.inl (toHex_isHex _ c h6)
  · rcases List.mem_cons.mp h2 with h3 | h4
    · exact Or.inr h3
    · exact Or.inl (toHex_isHex _ c h4)

theorem etagBody_no_quote (ino size mtime : Nat) :
    '"' ∉ etagBody ino size mtime := by
  intro h
  rcases etagBody_chars ino size mtime '"' h with h' | h'
  · exact absurd h' (by decide)
  · exact absurd h' (by decide)

theorem etagBody_no_comma (ino size mtime : Nat) :
    ',' ∉ etagBody ino size mtime := by
  intro h
  rcases etagBody_chars ino size mtime ',' h with h' | h'
  · exact absurd h' (by decide)
  · exact absurd h' (by decide)

theorem etagBody_no_space (ino size mtime : Nat) :
    ∀ c ∈ etagBody ino size mtime, isspaceB c = false := by
  intro c hc
  rcases etagBody_chars ino size mtime c hc with h' | h'
  · exact (isHexChar_facts c h').2.2.2
  · subst h'; decide

theorem mkEtag_cons (ino size mtime : Nat) :
    mkEtag ino size mtime = '"' :: (etagBody ino size mtime ++ ['"']) := by
  show ('"' :: etagBody ino size mtime) ++ ['"'] = _
  rw [List.cons_append]

theorem mkEtag_no_comma (ino size mtime : Nat) : ',' ∉ mkEtag ino size mtime := by
  rw [mkEtag_cons]
  intro h
  rcases List.mem_cons.mp h with h1 | h2
  · exact absurd h1 (by decide)
  · rcases List.mem_append.mp h2 with h3 | h4
    · exact etagBody_no_comma ino size mtime h3
    · rcases List.mem_singleton.mp h4 with h5
      exact absurd h5 (by decide)

theorem cleanServerEtag_mkEtag (ino size mtime : Nat) :
    cleanServerEtag (mkEtag ino size mtime) = etagBody ino size mtime := by
  rw [mkEtag_cons]
  unfold cleanServerEtag
  rw [List.head?_cons, if_pos rfl, List.tail_cons,
    lastIdxOf_append_singleton '"' _ (etagBody_no_quote ino size mtime)]
  exact List.take_left _ _

theorem stripQuotes255_mkEtag (ino size mtime : Nat) :
    stripQuotes255 (mkEtag ino size mtime) = etagBody ino size mtime := by
  rw [mkEtag_cons]
  unfold stripQuotes255
  rw [List.head?_cons, if_pos rfl, List.tail_cons,
    lastIdxOf_append_singleton '"' _ (etagBody_no_quote ino size mtime)]
  exact List.take_left _ _

theorem mkEtag_dropWhile (ino size mtime : Nat) :
    (mkEtag ino size mtime).dropWhile isspaceB = mkEtag ino size mtime := by
  rw [mkEtag_cons]; rfl

theorem mkEtag_ne_star (ino size mtime : Nat) : mkEtag ino size mtime ≠ ['*'] := by
  rw [mkEtag_cons]
  intro h
  have := congrArg List.head? h
  simp at this

theorem mkEtag_take2_ne (ino size mtime : Nat) :
    (mkEtag ino size mtime).take 2 ≠ str "W/" := by
  rw [mkEtag_cons]
  intro h
  simp only [List.take_succ_cons, str] at h
  have := congrArg List.head? h
  simp at this

theorem tokenMatches_exact (ino size mtime : Nat) :
    tokenMatches (mkEtag ino size mtime) (mkEtag ino size mtime) = true := by
  unfold tokenMatches
  rw [mkEtag_dropWhile, if_neg (mkEtag_ne_star ino size mtime),
    if_neg (mkEtag_take2_ne ino size mtime), stripQuotes255_mkEtag,
    trimTrailing_eq_self _ (etagBody_no_space ino size mtime),
    cleanServerEtag_mkEtag]
  simp

theorem tokenMatches_weak (ino size mtime : Nat) :
    tokenMatches (str "W/" ++ mkEtag ino size mtime) (mkEtag ino size mtime) = true := by
  unfold tokenMatches
  have hW : str "W/" ++ mkEtag ino size mtime =
      'W' :: '/' :: mkEtag ino size mtime := rfl
  rw [hW]
  have hdw : ('W' :: '/' :: mkEtag ino size mtime).dropWhile isspaceB =
      'W' :: '/' :: mkEtag ino size mtime := rfl
  rw [hdw]
  rw [if_neg (by intro h; simp at h)]
  rw [if_pos (show ('W' :: '/' :: mkEtag ino size mtime).take 2 = str "W/" from rfl)]
  rw [show ('W' :: '/' :: mkEtag ino size mtime).drop 2 = mkEtag ino size mtime from rfl]
  rw [stripQuotes255_mkEtag,
    trimTrailing_eq_self _ (etagBody_no_space ino size mtime),
    cleanServerEtag_mkEtag]
  simp

theorem tokenMatches_star (etag : List Char) : tokenMatches (str "*") etag = true := rfl

theorem mkEtag_ne_nil (ino size mtime : Nat) : mkEtag ino size mtime ≠ [] := by
  rw [mkEtag_cons]; simp

theorem ifNoneMatchMatches_cases (ino size mtime : Nat) (v : List Char)
    (hcase : v = mkEtag ino size mtime ∨ v = str "W/" ++ mkEtag ino size mtime ∨
      v = str "*" ∨ ∃ w, v = w ++ ',' :: mkEtag ino size mtime) :
    ifNoneMatchMatches v (mkEtag ino size mtime) = true := by
  unfold ifNoneMatchMatches
  rcases hcase with rfl | rfl | rfl | ⟨w, rfl⟩
  · rw [strtokComma_single _ (mkEtag_no_comma ino size mtime) (mkEtag_ne_nil ino size mtime)]
    simp [tokenMatches_exact]
  · have hnc : ',' ∉ str "W/" ++ mkEtag ino size mtime := by
      intro h
      rcases List.mem_append.mp h with h | h
      · exact absurd h (by decide)
      · exact mkEtag_no_comma ino size mtime h
    rw [strtokComma_single _ hnc (by simp [str])]
    simp [tokenMatches_weak]
  · rw [strtokComma_single _ (by decide) (by decide)]
    simp [tokenMatches_star]
  · rw [List.any_eq_true]
    exact ⟨mkEtag ino size mtime,
      mem_strtokComma_last w _ (mkEtag_no_comma ino size mtime) (mkEtag_ne_nil ino size mtime),
      tokenMatches_exact ino size mtime⟩

/- ================================================================== -/
/- Claim theorems.                                                     -/
/- ================================================================== -/

theorem find_linear_matches (ents : Nat → CacheEntry) (p k : List Char) (now : Int)
    (skip : Nat) (e : CacheEntry) :
    ∀ fuel i, find_linear ents p k now skip i fuel = some e →
      entryMatches e p k now = true := by
  intro fuel
  induction fuel with
  | zero => intro i h; simp [find_linear] at h
  | succ fuel ih =>
    intro i h
    unfold find_linear at h
    by_cases h1 : i = skip
    · rw [if_pos h1] at h; exact ih _ h
    · rw [if_neg h1] at h
      by_cases h2 : entryMatches (ents i) p k now = true
      · rw [if_pos h2] at h
        cases Option.some.inj h
        exact h2
      · rw [if_neg h2] at h; exact ih _ h

/-- Claim C4: for every state of the response cache and every lookup —
whether satisfied by the primary hash probe or by the fallback linear
sweep — an entry comes back as a hit only if its stored path equals the
requested path, its stored vary key equals the vary key generated for the
request, and its age `now - timestamp` is strictly below the TTL. -/
theorem cache_hit_conditions_c4 (n : Nat) (ents : Nat → CacheEntry)
    (path : List Char) (headers : List (List Char × List Char)) (now : Int)
    (e : CacheEntry)
    (h : find_cached_response n ents path headers now = some e) :
    e.path = path ∧ e.vary_key = generate_vary_key path (some headers) ∧
      now - e.timestamp < CACHE_TIMEOUT := by
  have hm : entryMatches e path (generate_vary_key path (some headers)) now = true := by
    unfold find_cached_response at h
    by_cases hp : entryMatches (ents (hash_key n (generate_vary_key path (some headers))))
        path (generate_vary_key path (some headers)) now = true
    · rw [if_pos hp] at h
      cases Option.some.inj h
      exact hp
    · rw [if_neg hp] at h
      exact find_linear_matches ents path _ now _ e n _ h
  simp only [entryMatches, Bool.and_eq_true, decide_eq_true_eq, ne_eq,
    Bool.not_eq_true'] at hm
  exact ⟨hm.1.1.2, hm.1.2, hm.2⟩

theorem cache_hit_conditions_c4_witness :
    find_cached_response 1
        (fun _ => ⟨str "/a", str "RESP", 900, str "/a:none", str "E"⟩)
        (str "/a") [] 1000 =
      some ⟨str "/a", str "RESP", 900, str "/a:none", str "E"⟩ ∧
    (str "/a", str "/a:none") =
      ((⟨str "/a", str "RESP", 900, str "/a:none", str "E"⟩ : CacheEntry).path,
        generate_vary_key (str "/a") (some [])) ∧
    (1000 : Int) - 900 < CACHE_TIMEOUT := by
  refine ⟨by decide, ?_, by decide⟩
  have h := cache_hit_conditions_c4 1
    (fun _ => ⟨str "/a", str "RESP", 900, str "/a:none", str "E"⟩)
    (str "/a") [] 1000 ⟨str "/a", str "RESP", 900, str "/a:none", str "E"⟩ (by decide)
  rw [← h.2.1]

/-- Claim C5: in production mode an in-window request that pushes the
count past the threshold is denied and bumps the violation count; reaching
five violations sets `ban_until = now + BAN_DURATION`; and while
`now < ban_until` every admission attempt for that slot is denied. -/
theorem rate_limit_c5 (e : RateEntry) (ip : List Char) (now : Int)
    (hip : e.ip = ip) (hipne : ip ≠ [])
    (hban : e.ban_until = 0)
    (hconc : e.connection_count < MAX_CONCURRENT_CONNECTIONS_PER_IP)
    (hwin : now - e.window_start < RATE_LIMIT_WINDOW)
    (hcount : RATE_LIMIT_MAX_REQUESTS ≤ e.request_count) :
    (check_rate_limit false e ip now).1 = false ∧
    (check_rate_limit false e ip now).2.violation_count = e.violation_count + 1 ∧
    (MAX_VIOLATIONS_BEFORE_BAN ≤ e.violation_count + 1 →
      (check_rate_limit false e ip now).2.ban_until = now + BAN_DURATION) ∧
    (∀ e2 : RateEntry, ∀ now2 : Int, 0 < e2.ban_until → now2 < e2.ban_until →
      (check_rate_limit false e2 ip now2).1 = false) := by
  have hW : RATE_LIMIT_WINDOW = 60 := rfl
  have h1 : ¬ (0 < e.ban_until ∧ now < e.ban_until) := by rw [hban]; simp
  have h2 : ¬ (0 < e.ban_until ∧ e.ban_until ≤ now) := by rw [hban]; simp
  have h3 : ¬ (e.ip = [] ∨ e.ip ≠ ip ∨ RATE_LIMIT_WINDOW * 2 < now - e.window_start) := by
    push_neg
    refine ⟨?_, ?_, ?_⟩
    · rw [hip]; exact hipne
    · rw [hip]
    · rw [hW] at hwin ⊢; omega
  have h4 : ¬ (MAX_CONCURRENT_CONNECTIONS_PER_IP ≤ e.connection_count) :=
    Nat.not_le.mpr hconc
  have h5 : ¬ (RATE_LIMIT_WINDOW ≤ now - e.window_start) := by
    rw [hW] at hwin ⊢; omega
  have h6 : RATE_LIMIT_MAX_REQUESTS < e.request_count + 1 :=
    Nat.lt_succ_of_le hcount
  refine ⟨?_, ?_, ?_, ?_⟩
  · simp only [check_rate_limit, Bool.false_eq_true, if_false, if_neg h1, if_neg h2,
      if_neg h3, if_neg h4, if_neg h5, if_pos h6]
  · simp only [check_rate_limit, Bool.false_eq_true, if_false, if_neg h1, if_neg h2,
      if_neg h3, if_neg h4, if_neg h5, if_pos h6]
    by_cases h7 : MAX_VIOLATIONS_BEFORE_BAN ≤ e.violation_count + 1 <;>
      simp [h7]
  · intro h7
    simp only [check_rate_limit, Bool.false_eq_true, if_false, if_neg h1, if_neg h2,
      if_neg h3, if_neg h4, if_neg h5, if_pos h6, if_pos h7]
  · intro e2 now2 hb1 hb2
    have hb : 0 < e2.ban_until ∧ now2 < e2.ban_until := ⟨hb1, hb2⟩
    simp only [check_rate_limit, Bool.false_eq_true, if_false, if_pos hb]

theorem rate_limit_c5_witness :
    ((check_rate_limit false ⟨str "1.2.3.4", 0, 100, 0, 1, 4, 0⟩ (str "1.2.3.4") 30).1
        = false) ∧
    ((check_rate_limit false ⟨str "1.2.3.4", 0, 100, 0, 1, 4, 0⟩ (str "1.2.3.4") 30).2.violation_count
        = 5) ∧
    ((check_rate_limit false ⟨str "1.2.3.4", 0, 100, 0, 1, 4, 0⟩ (str "1.2.3.4") 30).2.ban_until
        = 630) ∧
    ((check_rate_limit false ⟨str "1.2.3.4", 0, 101, 30, 2, 5, 630⟩ (str "1.2.3.4") 100).1
        = false) := by
  have h := rate_limit_c5 ⟨str "1.2.3.4", 0, 100, 0, 1, 4, 0⟩ (str "1.2.3.4") 30
    rfl (by decide) rfl (by decide) (by decide) (by decide)
  exact ⟨h.1, h.2.1, by rw [h.2.2.1 (by decide)]; decide,
    h.2.2.2 ⟨str "1.2.3.4", 0, 101, 30, 2, 5, 630⟩ 100 (by decide) (by decide)⟩

/-- Claim C6 (code bug): an admitted connection whose setup fails after
admission — here the buffer-pool allocation failing inside
`worker_handle_connection` — is closed without any rate-limiter release,
while a fully registered connection is released exactly once through
`worker_remove_client`. -/
theorem release_pairing_c6 :
    releaseCount (admitted_connection_events setupBufferFail) = 0 ∧
    ConnEvent.closeClient ∈ admitted_connection_events setupBufferFail ∧
    releaseCount (admitted_connection_events setupAllOk) = 1 := by decide

/-- Claim C8 counterexample: an extension outside the table is mapped to
"text/html" (the first table row), not to "application/octet-stream". -/
theorem mime_default_c8_cex :
    http_get_mime_type (str "file.xyz") = str "text/html" ∧
    ¬ http_get_mime_type (str "file.xyz") = str "application/octet-stream" ∧
    ¬ http_get_mime_type (str "README") = str "application/octet-stream" := by decide

/-- Claim C8 (amended): the tabulated extensions map as listed
(case-insensitively), and both an unknown extension and a path without an
extension map to "text/html". -/
theorem mime_table_c8 :
    http_get_mime_type (str "a.html") = str "text/html" ∧
    http_get_mime_type (str "a.htm") = str "text/html" ∧
    http_get_mime_type (str "a.css") = str "text/css" ∧
    http_get_mime_type (str "a.js") = str "application/javascript" ∧
    http_get_mime_type (str "a.json") = str "application/json" ∧
    http_get_mime_type (str "a.png") = str "image/png" ∧
    http_get_mime_type (str "a.jpg") = str "image/jpeg" ∧
    http_get_mime_type (str "a.jpeg") = str "image/jpeg" ∧
    http_get_mime_type (str "a.gif") = str "image/gif" ∧
    http_get_mime_type (str "a.ico") = str "image/x-icon" ∧
    http_get_mime_type (str "a.txt") = str "text/plain" ∧
    http_get_mime_type (str "a.pdf") = str "application/pdf" ∧
    http_get_mime_type (str "a.HTML") = str "text/html" ∧
    http_get_mime_type (str "file.xyz") = str "text/html" ∧
    http_get_mime_type (str "README") = str "text/html" := by decide

/-- Claim C1: whenever the path resolver returns a canonical path instead
of rejecting, that path begins with the canonical (realpath-resolved)
root followed by end-of-string or a path separator; and every request
path containing ".." is rejected by the resolver, so the request handler
(for the GET/HEAD methods that reach path resolution) answers 403
Forbidden. -/
theorem path_resolution_c1 :
    (∀ (rp : List Char → Option (List Char)) (root req out : List Char),
      validate_and_resolve_path rp root req = some out →
      ∃ croot, rp root = some croot ∧ isPrefixB croot out = true ∧
        (out.length = croot.length ∨ out.get? croot.length = some '/')) ∧
    (∀ (rp : List Char → Option (List Char)) (root req : List Char),
      containsSub (str "..") req = true →
      validate_and_resolve_path rp root req = Option.none) ∧
    (∀ (env : HandlerEnv) (req : Request),
      containsSub (str "..") req.uri = true →
      (req.method = str "GET" ∨ req.method = str "HEAD") →
      (http_handle_request env req).status_code = 403) := by
  have key : ∀ (rp : List Char → Option (List Char)) (root req out : List Char),
      validate_and_resolve_path rp root req = some out →
      ∃ croot, rp root = some croot ∧ isPrefixB croot out = true ∧
        (out.length = croot.length ∨ out.get? croot.length = some '/') := by
    intro rp root req out h
    unfold validate_and_resolve_path at h
    split at h
    · exact absurd h (by simp)
    · split at h
      · exact absurd h (by simp)
      · rcases hc : resolve_candidate rp root (root ++ req) with _ | cp <;> rw [hc] at h
        · exact absurd h (by simp)
        · rcases hr : rp root with _ | croot <;> rw [hr] at h <;> dsimp only at h
          · exact absurd h (by simp)
          · by_cases hpre : rootPrefixOk croot cp = true
            · rw [if_pos hpre] at h
              split at h
              · exact absurd h (by simp)
              · cases Option.some.inj h
                refine ⟨croot, rfl, ?_, ?_⟩
                · exact (Bool.and_eq_true .. ▸ hpre).1
                · have h2 := (Bool.and_eq_true .. ▸ hpre).2
                  rcases Bool.or_eq_true .. ▸ h2 with h3 | h3
                  · exact Or.inl (by exact_mod_cast of_decide_eq_true h3)
                  · exact Or.inr (of_decide_eq_true h3)
            · rw [if_neg hpre] at h
              exact absurd h (by simp)
  have rejects : ∀ (rp : List Char → Option (List Char)) (root req : List Char),
      containsSub (str "..") req = true →
      validate_and_resolve_path rp root req = Option.none := by
    intro rp root req hdd
    unfold validate_and_resolve_path
    rw [if_pos hdd]
  refine ⟨key, rejects, ?_⟩
  intro env req hdd hm
  have huri : req.uri ≠ str "/" := by
    intro h
    rw [h] at hdd
    exact absurd hdd (by decide)
  unfold http_handle_request
  rw [if_neg (by rcases hm with hm | hm <;> simp [hm, str])]
  rw [if_neg huri]
  dsimp only
  rw [rejects env.realpath env.root_dir req.uri hdd]

theorem path_resolution_c1_witness :
    validate_and_resolve_path (fun _ => some (str "/r")) (str "/r") (str "/a")
        = some (str "/r") ∧
    (∃ croot, (fun (_ : List Char) => some (str "/r")) (str "/r") = some croot ∧
      isPrefixB croot (str "/r") = true ∧
      ((str "/r").length = croot.length ∨ (str "/r").get? croot.length = some '/')) ∧
    validate_and_resolve_path (fun _ => some (str "/r")) (str "/r") (str "/../etc/passwd")
        = Option.none ∧
    (http_handle_request envA
      ⟨str "GET", str "/../etc/passwd", str "HTTP/1.1", [], true⟩).status_code = 403 := by
  refine ⟨by decide, ?_, ?_, ?_⟩
  · exact path_resolution_c1.1 (fun _ => some (str "/r")) (str "/r") (str "/a")
      (str "/r") (by decide)
  · exact path_resolution_c1.2.1 (fun _ => some (str "/r")) (str "/r")
      (str "/../etc/passwd") (by decide)
  · exact path_resolution_c1.2.2 envA
      ⟨str "GET", str "/../etc/passwd", str "HTTP/1.1", [], true⟩ (by decide) (Or.inl rfl)
theorem add_header_status (r : Response) (n v : List Char) :
    (http_add_header r n v).status_code = r.status_code := by
  unfold http_add_header; split <;> rfl

theorem add_header_body (r : Response) (n v : List Char) :
    (http_add_header r n v).body_length = r.body_length := by
  unfold http_add_header; split <;> rfl

theorem mem_add_header_of_mem (r : Response) (n v : List Char) (x : List Char × List Char)
    (h : x ∈ r.headers) : x ∈ (http_add_header r n v).headers := by
  unfold http_add_header; split
  · exact List.mem_append_left _ h
  · exact h

theorem mem_add_header_self (r : Response) (n v : List Char)
    (h : r.headers.length < MAX_HEADERS) :
    (n.take (MAX_HEADER_SIZE - 1), v.take (MAX_HEADER_SIZE - 1)) ∈
      (http_add_header r n v).headers := by
  unfold http_add_header
  rw [if_pos h]
  exact List.mem_append_right _ (List.mem_singleton.mpr rfl)

theorem toHexAux_length_le : ∀ (fuel k n : Nat) (acc : List Char), 0 < k →
    n < 16 ^ k → (toHexAux fuel n acc).length ≤ acc.length + k := by
  intro fuel
  induction fuel with
  | zero => intro k n acc hk _; simp [toHexAux]
  | succ fuel ih =>
    intro k n acc hk hn
    unfold toHexAux
    by_cases h16 : n < 16
    · rw [if_pos h16]; simp; omega
    · rw [if_neg h16]
      have hk2 : 2 ≤ k := by
        by_contra hk1
        have : k = 1 := by omega
        subst this
        simp at hn
        omega
      have hdiv : n / 16 < 16 ^ (k - 1) := by
        have : 16 ^ k = 16 ^ (k - 1) * 16 := by
          conv_lhs => rw [show k = (k - 1) + 1 by omega]
          rw [pow_succ]
        omega
      have := ih (k - 1) (n / 16) (hexDigit (n % 16) :: acc) (by omega) hdiv
      simp at this
      omega

theorem toHex_length_le (k n : Nat) (hk : 0 < k) (hn : n < 16 ^ k) :
    (toHex n).length ≤ k := by
  have := toHexAux_length_le (n + 1) k n [] hk hn
  simpa [toHex] using this

theorem mkEtag_length_le (ino size mtime : Nat)
    (h1 : ino < 16 ^ 16) (h2 : size < 16 ^ 16) (h3 : mtime < 16 ^ 16) :
    (mkEtag ino size mtime).length ≤ 52 := by
  have e1 := toHex_length_le 16 ino (by omega) h1
  have e2 := toHex_length_le 16 size (by omega) h2
  have e3 := toHex_length_le 16 mtime (by omega) h3
  rw [mkEtag_cons]
  simp [etagBody, List.length_append]
  omega

theorem mkEtag_take_8191 (ino size mtime : Nat)
    (h1 : ino < 16 ^ 16) (h2 : size < 16 ^ 16) (h3 : mtime < 16 ^ 16) :
    (mkEtag ino size mtime).take (MAX_HEADER_SIZE - 1) = mkEtag ino size mtime :=
  List.take_of_length_le (by
    have := mkEtag_length_le ino size mtime h1 h2 h3
    unfold MAX_HEADER_SIZE
    omega)
theorem handleCacheHit_matched (req : Request) (c : CacheEntry) (is_head : Bool)
    (v : List Char)
    (hv : findHeader req.headers (str "If-None-Match") = some v)
    (hmatch : ifNoneMatchMatches v c.etag = true) :
    (handleCacheHit req (http_create_response 200) c is_head).status_code = 304 ∧
    (handleCacheHit req (http_create_response 200) c is_head).body_length = 0 ∧
    (str "ETag", c.etag.take (MAX_HEADER_SIZE - 1)) ∈
      (handleCacheHit req (http_create_response 200) c is_head).headers := by
  unfold handleCacheHit
  rw [hv]
  dsimp only
  rw [hmatch]
  rw [if_pos rfl]
  refine ⟨?_, ?_, ?_⟩
  · rw [add_header_status]
  · rw [add_header_body]
  · exact mem_add_header_self _ (str "ETag") c.etag (by decide)

theorem handleFresh304_props (req : Request) (etag fp : List Char) :
    (handleFresh304 req (http_create_response 200) etag fp).status_code = 304 ∧
    (handleFresh304 req (http_create_response 200) etag fp).body_length = 0 ∧
    (str "ETag", etag.take (MAX_HEADER_SIZE - 1)) ∈
      (handleFresh304 req (http_create_response 200) etag fp).headers := by
  unfold handleFresh304
  dsimp only
  split <;> (try split_ifs) <;>
    refine ⟨by simp [add_header_status]; try decide, by simp [add_header_body]; try decide, ?_⟩ <;>
    first
      | exact mem_add_header_of_mem _ _ _ _ (mem_add_header_of_mem _ _ _ _
          (mem_add_header_self _ (str "ETag") etag (by decide)))
      | exact mem_add_header_of_mem _ _ _ _
          (mem_add_header_self _ (str "ETag") etag (by decide))
/-- Claim C2: a GET request whose If-None-Match header value is the stored
ETag T, or "W/" followed by T, or "*", or a comma-separated list ending in
T, produces a 304 Not Modified response with no body carrying that ETag —
both on the response-cache hit path (hit entry with ETag T) and on the
fresh stat path (T derived from the stat data).  The bounds on
ino/size/mtime say the values fit C's unsigned long (at most 16 hex
digits), which keeps the 64-byte ETag buffer and the header copies from
truncating. -/
theorem etag_304_c2 (env : HandlerEnv) (req : Request) (ino size mtime : Nat)
    (v fp : List Char)
    (hm : req.method = str "GET")
    (hino : ino < 16 ^ 16) (hsize : size < 16 ^ 16) (hmtime : mtime < 16 ^ 16)
    (hfp : validate_and_resolve_path env.realpath env.root_dir
      (if req.uri = str "/" then str "/index.html" else req.uri) = some fp)
    (hv : findHeader req.headers (str "If-None-Match") = some v)
    (hcase : v = mkEtag ino size mtime ∨ v = str "W/" ++ mkEtag ino size mtime ∨
      v = str "*" ∨ ∃ w, v = w ++ ',' :: mkEtag ino size mtime) :
    (∀ c : CacheEntry,
      find_cached_response env.cache_size env.cache fp req.headers env.now = some c →
      c.etag = mkEtag ino size mtime →
      (http_handle_request env req).status_code = 304 ∧
      (http_handle_request env req).body_length = 0 ∧
      (str "ETag", mkEtag ino size mtime) ∈ (http_handle_request env req).headers) ∧
    (find_cached_response env.cache_size env.cache fp req.headers env.now = Option.none →
      env.statPath fp = some ⟨ino, size, mtime⟩ →
      (http_handle_request env req).status_code = 304 ∧
      (http_handle_request env req).body_length = 0 ∧
      (str "ETag", mkEtag ino size mtime) ∈ (http_handle_request env req).headers) := by
  have h501 : ¬ (req.method ≠ str "GET" ∧ req.method ≠ str "HEAD") := by
    rw [hm]; simp
  have hmatch' : ifNoneMatchMatches v (mkEtag ino size mtime) = true :=
    ifNoneMatchMatches_cases ino size mtime v hcase
  constructor
  · intro c hfind hetag
    have heq : http_handle_request env req =
        handleCacheHit req (http_create_response 200) c
          (decide (req.method = str "HEAD")) := by
      unfold http_handle_request
      rw [if_neg h501]
      dsimp only
      rw [hfp]
      dsimp only
      rw [hfind]
    have h := handleCacheHit_matched req c (decide (req.method = str "HEAD")) v hv
      (by rw [hetag]; exact hmatch')
    rw [hetag, mkEtag_take_8191 ino size mtime hino hsize hmtime] at h
    rw [heq]
    exact h
  · intro hfind hstat
    have heq : http_handle_request env req =
        handleFresh304 req (http_create_response 200) (mkEtag ino size mtime) fp := by
      unfold http_handle_request
      rw [if_neg h501]
      dsimp only
      rw [hfp]
      dsimp only
      rw [hfind]
      dsimp only
      rw [hstat]
      dsimp only
      rw [hv]
      dsimp only
      rw [hmatch']
      rw [if_pos rfl]
    have h := handleFresh304_props req (mkEtag ino size mtime) fp
    rw [mkEtag_take_8191 ino size mtime hino hsize hmtime] at h
    rw [heq]
    exact h

theorem etag_304_c2_witness :
    ((http_handle_request envA
        ⟨str "GET", str "/index.html", str "HTTP/1.1",
          [(str "If-None-Match", str "\"10-1-20\"")], true⟩).status_code = 304 ∧
      (http_handle_request envA
        ⟨str "GET", str "/index.html", str "HTTP/1.1",
          [(str "If-None-Match", str "\"10-1-20\"")], true⟩).body_length = 0 ∧
      (str "ETag", mkEtag 16 1 32) ∈ (http_handle_request envA
        ⟨str "GET", str "/index.html", str "HTTP/1.1",
          [(str "If-None-Match", str "\"10-1-20\"")], true⟩).headers) ∧
    ((http_handle_request
        { envA with
          cache_size := 1
          cache := fun _ => ⟨str "/r/index.html", str "X", 900,
            str "/r/index.html:none", str "\"10-1-20\""⟩ }
        ⟨str "GET", str "/index.html", str "HTTP/1.1",
          [(str "If-None-Match", str "W/\"10-1-20\"")], true⟩).status_code = 304 ∧
      (http_handle_request
        { envA with
          cache_size := 1
          cache := fun _ => ⟨str "/r/index.html", str "X", 900,
            str "/r/index.html:none", str "\"10-1-20\""⟩ }
        ⟨str "GET", str "/index.html", str "HTTP/1.1",
          [(str "If-None-Match", str "W/\"10-1-20\"")], true⟩).body_length = 0) := by
  constructor
  · exact (etag_304_c2 envA
      ⟨str "GET", str "/index.html", str "HTTP/1.1",
        [(str "If-None-Match", str "\"10-1-20\"")], true⟩
      16 1 32 (str "\"10-1-20\"") (str "/r/index.html")
      rfl (by norm_num) (by norm_num) (by norm_num) (by decide) (by decide)
      (Or.inl (by decide))).2 (by decide) (by decide)
  · have h := (etag_304_c2
      { envA with
        cache_size := 1
        cache := fun _ => ⟨str "/r/index.html", str "X", 900,
          str "/r/index.html:none", str "\"10-1-20\""⟩ }
      ⟨str "GET", str "/index.html", str "HTTP/1.1",
        [(str "If-None-Match", str "W/\"10-1-20\"")], true⟩
      16 1 32 (str "W/\"10-1-20\"") (str "/r/index.html")
      rfl (by norm_num) (by norm_num) (by norm_num) (by decide) (by decide)
      (Or.inr (Or.inl (by decide)))).1
      ⟨str "/r/index.html", str "X", 900, str "/r/index.html:none", str "\"10-1-20\""⟩
      (by decide) (by decide)
    exact ⟨h.1, h.2.1⟩

/-- Claim C3: the entity tag is the quoted "inode-size-mtime" string in
lowercase hexadecimal (every character `toHex` emits is a lowercase hex
digit), and the concrete scenario: GET /index.html against a root whose
1-byte index.html has inode 0x10, size 1, mtime 0x20 yields a 200
response with Content-Type: text/html, Content-Length: 1 and
ETag: "10-1-20" — which is exactly `mkEtag 0x10 1 0x20`. -/
theorem etag_format_c3 :
    (∀ n : Nat, (toHex n).all isHexChar = true) ∧
    worker_dispatch_response envA
        (str "GET /index.html HTTP/1.1\r\nHost: x\r\n\r\n") ≠ Option.none ∧
    (respOf (worker_dispatch_response envA
        (str "GET /index.html HTTP/1.1\r\nHost: x\r\n\r\n"))).status_code = 200 ∧
    (str "Content-Type", str "text/html") ∈ (respOf (worker_dispatch_response envA
        (str "GET /index.html HTTP/1.1\r\nHost: x\r\n\r\n"))).headers ∧
    (str "Content-Length", str "1") ∈ (respOf (worker_dispatch_response envA
        (str "GET /index.html HTTP/1.1\r\nHost: x\r\n\r\n"))).headers ∧
    (str "ETag", str "\"10-1-20\"") ∈ (respOf (worker_dispatch_response envA
        (str "GET /index.html HTTP/1.1\r\nHost: x\r\n\r\n"))).headers ∧
    str "\"10-1-20\"" = mkEtag 16 1 32 := by
  refine ⟨?_, by decide, by decide, by decide, by decide, by decide, by decide⟩
  intro n
  rw [List.all_eq_true]
  exact toHex_isHex n

/-- Claim C7 (code bug): `http_parse_request` accepts the request line
`GET / HTTP/999.999` (it returns success, recording the version verbatim,
and has no UnsupportedVersion return), so the worker's 505 branch is
unreachable and the request is served normally — here with status 200. -/
theorem version_505_c7 :
    http_parse_request (str "GET / HTTP/999.999\r\nHost: localhost\r\n\r\n") 39
        ≠ Option.none ∧
    (http_parse_request (str "GET / HTTP/999.999\r\nHost: localhost\r\n\r\n") 39).map
        Request.version = some (str "HTTP/999.999") ∧
    worker_dispatch_response envA (str "GET / HTTP/999.999\r\nHost: localhost\r\n\r\n")
        ≠ Option.none ∧
    (respOf (worker_dispatch_response envA
        (str "GET / HTTP/999.999\r\nHost: localhost\r\n\r\n"))).status_code = 200 := by
  refine ⟨by decide, by decide, by decide, by decide⟩
theorem negotiate_no_ae (hs : List (List Char × List Char)) (h : countAE hs = 0) :
    http_negotiate_compression hs = .none := by
  induction hs with
  | nil => rfl
  | cons p t ih =>
    obtain ⟨n, v⟩ := p
    unfold countAE at h
    rw [List.countP_cons] at h
    by_cases hae : strCaseEq n (str "Accept-Encoding") = true
    · simp [hae] at h
    · unfold http_negotiate_compression
      rw [if_neg hae]
      exact ih (by unfold countAE; omega)

theorem varyTag_no_ae (hs : List (List Char × List Char)) (h : countAE hs = 0) :
    varyTag hs = Option.none := by
  induction hs with
  | nil => rfl
  | cons p t ih =>
    obtain ⟨n, v⟩ := p
    unfold countAE at h
    rw [List.countP_cons] at h
    by_cases hae : strCaseEq n (str "Accept-Encoding") = true
    · simp [hae] at h
    · unfold varyTag
      rw [if_neg hae]
      exact ih (by unfold countAE; omega)

theorem countAE_pos_of_mem (hs : List (List Char × List Char))
    (p : List Char × List Char) (hp : p ∈ hs)
    (hae : strCaseEq p.1 (str "Accept-Encoding") = true) : 0 < countAE hs := by
  unfold countAE
  rw [List.countP_pos_iff]
  exact ⟨p, hp, hae⟩

theorem varyTag_shape (hs : List (List Char × List Char)) :
    varyTag hs = Option.none ∨ varyTag hs = some (str "gzip") ∨
    varyTag hs = some (str "deflate") ∨ varyTag hs = some (str "none") := by
  induction hs with
  | nil => exact Or.inl rfl
  | cons q t ih =>
    obtain ⟨n, v⟩ := q
    by_cases hae : strCaseEq n (str "Accept-Encoding") = true
    · unfold varyTag
      rw [if_pos hae]
      by_cases hg : containsSub (str "gzip") v = true
      · rw [if_pos hg]; exact Or.inr (Or.inl rfl)
      · rw [if_neg hg]
        by_cases hd : containsSub (str "deflate") v = true
        · rw [if_pos hd]; exact Or.inr (Or.inr (Or.inl rfl))
        · rw [if_neg hd]; exact Or.inr (Or.inr (Or.inr rfl))
    · have : varyTag ((n, v) :: t) = varyTag t := by
        conv_lhs => unfold varyTag
        rw [if_neg hae]
      rw [this]
      exact ih

theorem generate_vary_key_eq (hs : List (List Char × List Char)) (path : List Char)
    (hlen : path.length ≤ 240) :
    generate_vary_key path (some hs) = path ++ ':' :: varyTagOf hs := by
  unfold generate_vary_key
  dsimp only
  have hkey : (path ++ [':']).take 255 = path ++ [':'] :=
    List.take_of_length_le (by simp; omega)
  rw [hkey]
  have hfix : ∀ t : List Char, t.getLast? ≠ some ':' → t ≠ [] →
      ¬ (((path ++ [':']) ++ t).contains ':' = true ∧
        ((path ++ [':']) ++ t).getLast? = some ':' ∧
        ((path ++ [':']) ++ t).length + 4 < 256) := by
    intro t hlast hne h
    rw [List.getLast?_append_of_ne_nil _ hne] at h
    exact hlast h.2.1
  have htake : ∀ t : List Char, t.length ≤ 14 →
      t.take (255 - (path ++ [':']).length) = t := by
    intro t ht
    refine List.take_of_length_le ?_
    simp only [List.length_append, List.length_cons, List.length_nil]
    omega
  rcases varyTag_shape hs with hv | hv | hv | hv <;> rw [hv] <;>
    unfold varyTagOf <;> rw [hv] <;> dsimp only
  · rw [if_pos ?_]
    · rw [List.append_assoc, List.singleton_append]
    · refine ⟨?_, List.getLast?_concat _, ?_⟩
      · simp
      · simp only [List.length_append, List.length_cons, List.length_nil]
        omega
  · rw [htake (str "gzip") (by decide),
      if_neg (hfix (str "gzip") (by decide) (by decide)),
      List.append_assoc, List.singleton_append]
  · rw [htake (str "deflate") (by decide),
      if_neg (hfix (str "deflate") (by decide) (by decide)),
      List.append_assoc, List.singleton_append]
  · rw [htake (str "none") (by decide),
      if_neg (hfix (str "none") (by decide) (by decide)),
      List.append_assoc, List.singleton_append]

/-- Claim C10 (amended): for a request with at most one Accept-Encoding
header, the negotiated encoding always agrees with the vary-key tag; if
the header's value contains "gzip" both select gzip; deflate is selected
only when the value lacks "gzip" and contains "deflate"; and for paths
short enough to escape the key buffer's truncation the generated vary key
is literally the path, a colon, and that tag. -/
theorem vary_negotiate_c10 (hs : List (List Char × List Char))
    (h1 : countAE hs ≤ 1) :
    encOf (http_negotiate_compression hs) = varyTagOf hs ∧
    (∀ p ∈ hs, strCaseEq p.1 (str "Accept-Encoding") = true →
      containsSub (str "gzip") p.2 = true →
      http_negotiate_compression hs = .gzip ∧ varyTagOf hs = str "gzip") ∧
    (http_negotiate_compression hs = .deflate →
      ∀ p ∈ hs, strCaseEq p.1 (str "Accept-Encoding") = true →
        containsSub (str "gzip") p.2 = false ∧
        containsSub (str "deflate") p.2 = true) ∧
    (∀ path : List Char, path.length ≤ 240 →
      generate_vary_key path (some hs) = path ++ ':' :: varyTagOf hs) := by
  have main : encOf (http_negotiate_compression hs) = varyTagOf hs ∧
      (∀ p ∈ hs, strCaseEq p.1 (str "Accept-Encoding") = true →
        containsSub (str "gzip") p.2 = true →
        http_negotiate_compression hs = .gzip ∧ varyTagOf hs = str "gzip") ∧
      (http_negotiate_compression hs = .deflate →
        ∀ p ∈ hs, strCaseEq p.1 (str "Accept-Encoding") = true →
          containsSub (str "gzip") p.2 = false ∧
          containsSub (str "deflate") p.2 = true) := by
    induction hs with
    | nil =>
      refine ⟨rfl, by simp, by intro h; simp [http_negotiate_compression] at h⟩
    | cons q t ih =>
      obtain ⟨n, v⟩ := q
      by_cases hae : strCaseEq n (str "Accept-Encoding") = true
      · have ht0 : countAE t = 0 := by
          unfold countAE at h1 ⊢
          simp only [List.countP_cons, hae, if_true] at h1
          omega
        by_cases hg : containsSub (str "gzip") v = true
        · have hneg : http_negotiate_compression ((n, v) :: t) = .gzip := by
            unfold http_negotiate_compression
            rw [if_pos hae, if_pos hg]
          have hvt : varyTagOf ((n, v) :: t) = str "gzip" := by
            unfold varyTagOf varyTag
            rw [if_pos hae, if_pos hg]
          refine ⟨by rw [hneg, hvt]; rfl, fun p _ _ _ => ⟨hneg, hvt⟩, ?_⟩
          rw [hneg]
          intro h
          exact absurd h (by simp)
        · by_cases hd : containsSub (str "deflate") v = true
          · have hneg : http_negotiate_compression ((n, v) :: t) = .deflate := by
              unfold http_negotiate_compression
              rw [if_pos hae, if_neg hg, if_pos hd]
            have hvt : varyTagOf ((n, v) :: t) = str "deflate" := by
              unfold varyTagOf varyTag
              rw [if_pos hae, if_neg hg, if_pos hd]
            refine ⟨by rw [hneg, hvt]; rfl, ?_, ?_⟩
            · intro p hp hpae hpg
              rcases List.mem_cons.mp hp with rfl | hp
              · exact absurd hpg hg
              · exact absurd (countAE_pos_of_mem t p hp hpae) (by omega)
            · intro _ p hp hpae
              rcases List.mem_cons.mp hp with rfl | hp
              · exact ⟨Bool.not_eq_true _ ▸ hg, hd⟩
              · exact absurd (countAE_pos_of_mem t p hp hpae) (by omega)
          · have hneg : http_negotiate_compression ((n, v) :: t) = .none := by
              unfold http_negotiate_compression
              rw [if_pos hae, if_neg hg, if_neg hd]
              exact negotiate_no_ae t ht0
            have hvt : varyTagOf ((n, v) :: t) = str "none" := by
              unfold varyTagOf varyTag
              rw [if_pos hae, if_neg hg, if_neg hd]
            refine ⟨by rw [hneg, hvt]; rfl, ?_, ?_⟩
            · intro p hp hpae hpg
              rcases List.mem_cons.mp hp with rfl | hp
              · exact absurd hpg hg
              · exact absurd (countAE_pos_of_mem t p hp hpae) (by omega)
            · rw [hneg]
              intro h
              exact absurd h (by simp)
      · have ht1 : countAE t ≤ 1 := by
          unfold countAE at h1 ⊢
          simp only [List.countP_cons] at h1
          omega
        have hneg : http_negotiate_compression ((n, v) :: t) =
            http_negotiate_compression t := by
          conv_lhs => unfold http_negotiate_compression
          rw [if_neg hae]
        have hvt : varyTagOf ((n, v) :: t) = varyTagOf t := by
          unfold varyTagOf
          conv_lhs => unfold varyTag
          rw [if_neg hae]
        obtain ⟨ih1, ih2, ih3⟩ := ih ht1
        refine ⟨by rw [hneg, hvt]; exact ih1, ?_, ?_⟩
        · intro p hp hpae hpg
          rcases List.mem_cons.mp hp with rfl | hp
          · exact absurd hpae hae
          · rw [hneg, hvt]
            exact ih2 p hp hpae hpg
        · rw [hneg]
          intro h p hp hpae
          rcases List.mem_cons.mp hp with rfl | hp
          · exact absurd hpae hae
          · exact ih3 h p hp hpae


  exact ⟨main.1, main.2.1, main.2.2, fun path hp => generate_vary_key_eq hs path hp⟩

/-- Claim C10 counterexample: with two Accept-Encoding headers ("br" then
"gzip") negotiation scans past the first header and selects gzip, while
the vary key is reduced from the first header only and tags "none": a
request whose Accept-Encoding value contains "gzip" where the vary tag is
not gzip, and where the negotiated encoding and the cache key's encoding
tag disagree. -/
theorem vary_negotiate_c10_cex :
    (∃ p ∈ [(str "Accept-Encoding", str "br"), (str "Accept-Encoding", str "gzip")],
      strCaseEq p.1 (str "Accept-Encoding") = true ∧
      containsSub (str "gzip") p.2 = true) ∧
    http_negotiate_compression
      [(str "Accept-Encoding", str "br"), (str "Accept-Encoding", str "gzip")] =
      CompressionType.gzip ∧
    varyTagOf [(str "Accept-Encoding", str "br"), (str "Accept-Encoding", str "gzip")] =
      str "none" ∧
    ¬ encOf (http_negotiate_compression
        [(str "Accept-Encoding", str "br"), (str "Accept-Encoding", str "gzip")]) =
      varyTagOf [(str "Accept-Encoding", str "br"), (str "Accept-Encoding", str "gzip")] := by
  decide

theorem vary_negotiate_c10_witness :
    countAE [(str "Accept-Encoding", str "gzip, deflate")] ≤ 1 ∧
    encOf (http_negotiate_compression [(str "Accept-Encoding", str "gzip, deflate")]) =
      varyTagOf [(str "Accept-Encoding", str "gzip, deflate")] ∧
    http_negotiate_compression [(str "Accept-Encoding", str "gzip, deflate")] =
      CompressionType.gzip ∧
    varyTagOf [(str "Accept-Encoding", str "gzip, deflate")] = str "gzip" ∧
    generate_vary_key (str "/a") (some [(str "Accept-Encoding", str "gzip, deflate")]) =
      str "/a" ++ ':' :: varyTagOf [(str "Accept-Encoding", str "gzip, deflate")] := by
  have h := vary_negotiate_c10 [(str "Accept-Encoding", str "gzip, deflate")] (by decide)
  have h2 := h.2.1 (str "Accept-Encoding", str "gzip, deflate")
    (by decide) (by decide) (by decide)
  exact ⟨by decide, h.1, h2.1, h2.2, h.2.2.2 (str "/a") (by decide)⟩
theorem add_header_names (names : List (List Char)) (r : Response) (n v : List Char)
    (hn : n.take (MAX_HEADER_SIZE - 1) ∈ names)
    (h : ∀ p ∈ r.headers, p.1 ∈ names) :
    ∀ p ∈ (http_add_header r n v).headers, p.1 ∈ names := by
  unfold http_add_header
  split
  · intro p hp
    rcases List.mem_append.mp hp with hp | hp
    · exact h p hp
    · rw [List.mem_singleton.mp hp]
      exact hn
  · exact h

theorem add_header_head (r : Response) (n v : List Char) (h : r.headers ≠ []) :
    (http_add_header r n v).headers.head? = r.headers.head? ∧
    (http_add_header r n v).headers ≠ [] := by
  unfold http_add_header
  split
  · rcases hh : r.headers with _ | ⟨x, xs⟩
    · exact absurd hh h
    · simp
  · exact ⟨rfl, h⟩

theorem compress_content_fields (env : HandlerEnv) (r : Response)
    (ty : CompressionType) (r' : Response)
    (h : http_compress_content env r ty = some r') :
    r'.headers = r.headers ∧ r'.status_code = r.status_code ∧
    r'.body_length = r.body_length ∧ r'.keep_alive = r.keep_alive := by
  unfold http_compress_content at h
  split_ifs at h
  · rw [← Option.some.inj h]
    exact ⟨rfl, rfl, rfl, rfl⟩
  · rw [← Option.some.inj h]
    exact ⟨rfl, rfl, rfl, rfl⟩

theorem add_header_shape (names : List (List Char)) (r : Response) (n v : List Char)
    (hn : n.take (MAX_HEADER_SIZE - 1) ∈ names)
    (h : HeadersShape names r) : HeadersShape names (http_add_header r n v) := by
  obtain ⟨h1, h2, h3⟩ := h
  obtain ⟨g1, g2⟩ := add_header_head r n v h2
  exact ⟨g1.trans h1, g2, add_header_names names r n v hn h3⟩

theorem create_response_headers (code : Nat) :
    (http_create_response code).headers = [(str "Server", str "NxLite")] := rfl

theorem create_response_shape (code : Nat) (names : List (List Char))
    (hs : str "Server" ∈ names) : HeadersShape names (http_create_response code) := by
  refine ⟨by rw [create_response_headers]; rfl, by rw [create_response_headers]; simp, ?_⟩
  intro p hp
  rw [create_response_headers] at hp
  rw [List.mem_singleton.mp hp]
  exact hs

theorem shape_mono (r : Response) (h : HeadersShape names304 r) :
    HeadersShape responseHeaderNames r := by
  obtain ⟨h1, h2, h3⟩ := h
  refine ⟨h1, h2, fun p hp => ?_⟩
  have := h3 p hp
  revert this
  unfold names304 responseHeaderNames
  intro this
  simp only [List.mem_cons, List.mem_singleton] at this ⊢
  tauto

theorem shape_of_headers_eq (names : List (List Char)) (r r' : Response)
    (he : r'.headers = r.headers) (h : HeadersShape names r) :
    HeadersShape names r' := by
  unfold HeadersShape at *
  rw [he]
  exact h

theorem serve_file_shape (env : HandlerEnv) (path : List Char) (r out : Response)
    (hserve : http_serve_file env path r = some out)
    (h : HeadersShape responseHeaderNames r) :
    HeadersShape responseHeaderNames out ∧ out.status_code = r.status_code := by
  unfold http_serve_file at hserve
  dsimp only at hserve
  rcases hos : env.openStat (if path.getLast? = some '/' then path ++ str "index.html"
      else path) with _ | st <;> rw [hos] at hserve
  · exact absurd hserve (by simp)
  · dsimp only at hserve
    have hout := (Option.some.inj hserve).symm
    subst hout
    constructor
    · split <;>
        (apply add_header_shape _ _ _ _ (by decide)
         apply add_header_shape _ _ _ _ (by decide)
         apply add_header_shape _ _ _ _ (by decide)
         apply add_header_shape _ _ _ _ (by decide)) <;>
        split_ifs <;>
        first
          | split <;>
              [ (rename_i r' heq
                 apply add_header_shape _ _ _ _ (by decide)
                 split_ifs <;>
                   first
                     | (apply add_header_shape _ _ _ _ (by decide)
                        exact shape_of_headers_eq _ _ _
                          (compress_content_fields _ _ _ _ heq).1
                          (add_header_shape _ _ _ _ (by decide) h))
                     | exact shape_of_headers_eq _ _ _
                         (compress_content_fields _ _ _ _ heq).1
                         (add_header_shape _ _ _ _ (by decide) h) );
                (apply add_header_shape _ _ _ _ (by decide)
                 exact add_header_shape _ _ _ _ (by decide) h) ]
          | (apply add_header_shape _ _ _ _ (by decide)
             exact add_header_shape _ _ _ _ (by decide) h)
    · split <;> split_ifs <;> (try split) <;>
        first
          | (simp [add_header_status]; done)
          | (rename_i r' heq
             split_ifs <;>
               simp [add_header_status, (compress_content_fields _ _ _ _ heq).2.1])

theorem names304_ne_cl : ∀ nm ∈ names304, nm ≠ str "Content-Length" := by decide

theorem handleCacheHit_shape (req : Request) (c : CacheEntry) (is_head : Bool) :
    HeadersShape names304 (handleCacheHit req (http_create_response 200) c is_head) ∧
    ((handleCacheHit req (http_create_response 200) c is_head).status_code = 304 →
      (handleCacheHit req (http_create_response 200) c is_head).body_length = 0) := by
  unfold handleCacheHit
  dsimp only
  split
  · constructor
    · exact add_header_shape _ _ _ _ (by decide)
        (create_response_shape 200 names304 (by decide))
    · intro _
      rw [add_header_body]
  · split
    · exact ⟨create_response_shape 200 names304 (by decide), fun _ => rfl⟩
    · refine ⟨create_response_shape 200 names304 (by decide), fun h => ?_⟩
      dsimp only at h
      exact absurd h (by decide)

theorem handleFresh304_shape (req : Request) (etag fp : List Char) :
    HeadersShape names304 (handleFresh304 req (http_create_response 200) etag fp) ∧
    (handleFresh304 req (http_create_response 200) etag fp).body_length = 0 := by
  unfold handleFresh304
  dsimp only
  constructor
  · split <;> (try split_ifs) <;>
      first
        | exact add_header_shape _ _ _ _ (by decide)
            (add_header_shape _ _ _ _ (by decide)
              (add_header_shape _ _ _ _ (by decide)
                (create_response_shape 200 names304 (by decide))))
        | exact add_header_shape _ _ _ _ (by decide)
            (add_header_shape _ _ _ _ (by decide)
              (create_response_shape 200 names304 (by decide)))
  · split <;> (try split_ifs) <;> (simp [add_header_body]; try decide)

theorem handleIms304_shape (env : HandlerEnv) (req : Request) (etag : List Char)
    (st : StatRec) :
    HeadersShape names304 (handleIms304 env req (http_create_response 200) etag st) ∧
    (handleIms304 env req (http_create_response 200) etag st).body_length = 0 := by
  unfold handleIms304
  dsimp only
  constructor
  · exact add_header_shape _ _ _ _ (by decide)
      (add_header_shape _ _ _ _ (by decide)
        (add_header_shape _ _ _ _ (by decide)
          (create_response_shape 200 names304 (by decide))))
  · simp [add_header_body]
    decide

theorem map_cl_shape (r : Response) (cl : List Char)
    (h : HeadersShape responseHeaderNames r) :
    HeadersShape responseHeaderNames { r with headers := r.headers.map (fun p =>
      if strCaseEq p.1 (str "Content-Length") then
        (p.1, cl.take (MAX_HEADER_SIZE - 1))
      else p) } := by
  obtain ⟨h1, h2, h3⟩ := h
  refine ⟨?_, ?_, ?_⟩
  · show (r.headers.map _).head? = _
    rcases hh : r.headers with _ | ⟨x, xs⟩
    · rw [hh] at h1; simp at h1
    · rw [hh] at h1
      simp only [List.head?_cons] at h1
      have hx := Option.some.inj h1
      subst hx
      simp only [List.map_cons, List.head?_cons]
      rw [if_neg (by decide)]
  · show r.headers.map _ ≠ []
    simp [h2]
  · intro p hp
    simp only [List.mem_map] at hp
    obtain ⟨q, hq, rfl⟩ := hp
    split
    · exact h3 q hq
    · exact h3 q hq

theorem applySecondCompression_shape (env : HandlerEnv) (ty : CompressionType)
    (r : Response) (h : HeadersShape responseHeaderNames r) :
    HeadersShape responseHeaderNames (applySecondCompression env ty r) ∧
    (applySecondCompression env ty r).status_code = r.status_code := by
  unfold applySecondCompression
  split
  · split
    · rename_i r' heq
      obtain ⟨he, hs, _, _⟩ := compress_content_fields _ _ _ _ heq
      have hsh' : HeadersShape responseHeaderNames r' :=
        shape_of_headers_eq _ _ _ he h
      dsimp only
      constructor
      · split_ifs <;>
          first
            | exact map_cl_shape _ _ (add_header_shape _ _ _ _ (by decide) hsh')
            | exact add_header_shape _ _ _ _ (by decide)
                (add_header_shape _ _ _ _ (by decide) hsh')
            | exact map_cl_shape _ _ hsh'
            | exact add_header_shape _ _ _ _ (by decide) hsh'
      · split_ifs <;> simp [add_header_status, hs]
    · exact ⟨h, rfl⟩
  · exact ⟨h, rfl⟩

theorem addKeepAliveHint_shape (env : HandlerEnv) (r : Response)
    (h : HeadersShape responseHeaderNames r) :
    HeadersShape responseHeaderNames (addKeepAliveHint env r) ∧
    (addKeepAliveHint env r).status_code = r.status_code := by
  unfold addKeepAliveHint
  split
  · exact ⟨add_header_shape _ _ _ _ (by decide) h, by simp [add_header_status]⟩
  · exact ⟨h, rfl⟩

theorem handleFresh200_shape (env : HandlerEnv) (req : Request) (fp : List Char)
    (is_head : Bool) :
    HeadersShape responseHeaderNames
      (handleFresh200 env req (http_create_response 200) fp is_head) ∧
    ((handleFresh200 env req (http_create_response 200) fp is_head).status_code = 200 ∨
     (handleFresh200 env req (http_create_response 200) fp is_head).status_code = 404) := by
  unfold handleFresh200
  dsimp only
  split
  · exact ⟨create_response_shape 200 _ (by decide), Or.inr rfl⟩
  · rename_i r2 heq
    obtain ⟨hsh, hst⟩ := serve_file_shape env fp _ r2 heq
      (create_response_shape 200 _ (by decide))
    have hst2 : r2.status_code = 200 := by rw [hst]; rfl
    have hsh3 : HeadersShape responseHeaderNames
        { r2 with keep_alive := http_should_keep_alive req } := hsh
    have hst3 : ({ r2 with keep_alive := http_should_keep_alive req } :
        Response).status_code = 200 := hst2
    obtain ⟨hc1, hc2⟩ := applySecondCompression_shape env _ _ hsh3
    obtain ⟨hk1, hk2⟩ := addKeepAliveHint_shape env _ hc1
    constructor
    · split
      · exact hk1
      · exact hk1
    · left
      split
      · exact hk2.trans (hc2.trans hst3)
      · exact hk2.trans (hc2.trans hst3)

theorem handler_shape (env : HandlerEnv) (req : Request) :
    HeadersShape responseHeaderNames (http_handle_request env req) ∧
    ((http_handle_request env req).status_code = 304 →
      (http_handle_request env req).body_length = 0 ∧
      ∀ p ∈ (http_handle_request env req).headers, p.1 ≠ str "Content-Length") := by
  unfold http_handle_request
  dsimp only
  split
  · refine ⟨shape_of_headers_eq _ _ _ rfl (create_response_shape 200 _ (by decide)),
      fun h => ?_⟩
    dsimp only at h
    exact absurd h (by decide)
  · split
    · refine ⟨shape_of_headers_eq _ _ _ rfl (create_response_shape 200 _ (by decide)),
        fun h => ?_⟩
      dsimp only at h
      exact absurd h (by decide)
    · split
      · rename_i c _
        obtain ⟨hs, hb⟩ := handleCacheHit_shape req c _
        exact ⟨shape_mono _ hs, fun h =>
          ⟨hb h, fun p hp => names304_ne_cl _ (hs.2.2 p hp)⟩⟩
      · split
        · refine ⟨shape_of_headers_eq _ _ _ rfl (create_response_shape 200 _ (by decide)),
            fun h => ?_⟩
          dsimp only at h
          exact absurd h (by decide)
        · split
          · obtain ⟨hs, hb⟩ := handleFresh304_shape req _ _
            exact ⟨shape_mono _ hs, fun _ =>
              ⟨hb, fun p hp => names304_ne_cl _ (hs.2.2 p hp)⟩⟩
          · split
            · obtain ⟨hs, hb⟩ := handleIms304_shape env req _ _
              exact ⟨shape_mono _ hs, fun _ =>
                ⟨hb, fun p hp => names304_ne_cl _ (hs.2.2 p hp)⟩⟩
            · obtain ⟨hs, hst⟩ := handleFresh200_shape env req _ _
              refine ⟨hs, fun h => ?_⟩
              rcases hst with h2 | h2 <;> rw [h] at h2 <;> exact absurd h2 (by decide)

theorem not_connection_line (nm v : List Char) (hm : nm ∈ responseHeaderNames) :
    isPrefixB (str "Connection:") (nm ++ ':' :: ' ' :: v) = false := by
  simp only [responseHeaderNames, List.mem_cons, List.mem_singleton,
    List.not_mem_nil, or_false] at hm
  rcases hm with rfl | rfl | rfl | rfl | rfl | rfl | rfl | rfl | rfl <;> rfl

theorem renderLines_connection (r : Response)
    (h : ∀ p ∈ r.headers, p.1 ∈ responseHeaderNames) :
    (renderLines r).countP (fun l => isPrefixB (str "Connection:") l) = 1 ∧
    (if r.keep_alive then str "Connection: keep-alive" else str "Connection: close")
      ∈ renderLines r := by
  constructor
  · unfold renderLines
    rw [List.countP_append, List.countP_cons]
    have h0 : (r.headers.map (fun h => h.1 ++ ':' :: ' ' :: h.2)).countP
        (fun l => isPrefixB (str "Connection:") l) = 0 := by
      rw [List.countP_eq_zero]
      intro l hl
      simp only [List.mem_map] at hl
      obtain ⟨q, hq, rfl⟩ := hl
      simp [not_connection_line q.1 q.2 (h q hq)]
    rw [h0]
    cases r.keep_alive <;> rfl
  · unfold renderLines
    exact List.mem_append_right _ (List.mem_singleton_self _)

/-- Claim C9 (corrected): every response built by `http_handle_request`
keeps the Server header added by `http_create_response` as its first
stored header, and the rendered header block carries exactly one
Connection line — keep-alive or close, chosen by the response's
keep-alive flag.  But the claimed Content-Length guarantee fails: a 304
response has body length 0 and carries no Content-Length header at all
(not a "Content-Length: 0"), and the plain error responses (501, 403,
404) carry no Content-Length either — see the counterexample. -/
theorem response_headers_c9 (env : HandlerEnv) (req : Request) :
    (http_handle_request env req).headers.head? = some (str "Server", str "NxLite") ∧
    (renderLines (http_handle_request env req)).countP
      (fun l => isPrefixB (str "Connection:") l) = 1 ∧
    (if (http_handle_request env req).keep_alive then str "Connection: keep-alive"
      else str "Connection: close") ∈ renderLines (http_handle_request env req) ∧
    ((http_handle_request env req).status_code = 304 →
      (http_handle_request env req).body_length = 0 ∧
      ∀ p ∈ (http_handle_request env req).headers, p.1 ≠ str "Content-Length") := by
  obtain ⟨hs, h304⟩ := handler_shape env req
  obtain ⟨hc1, hc2⟩ := renderLines_connection _ hs.2.2
  exact ⟨hs.1, hc1, hc2, h304⟩

theorem response_headers_c9_witness :
    (http_handle_request envA ⟨str "GET", str "/index.html", str "HTTP/1.1",
        [(str "If-None-Match", str "\"10-1-20\"")], true⟩).status_code = 304 ∧
    ((http_handle_request envA ⟨str "GET", str "/index.html", str "HTTP/1.1",
        [(str "If-None-Match", str "\"10-1-20\"")], true⟩).body_length = 0 ∧
      ∀ p ∈ (http_handle_request envA ⟨str "GET", str "/index.html", str "HTTP/1.1",
        [(str "If-None-Match", str "\"10-1-20\"")], true⟩).headers,
        p.1 ≠ str "Content-Length") ∧
    (renderLines (http_handle_request envA ⟨str "GET", str "/index.html",
        str "HTTP/1.1", [(str "If-None-Match", str "\"10-1-20\"")], true⟩)).countP
      (fun l => isPrefixB (str "Connection:") l) = 1 :=
  ⟨by decide,
   (response_headers_c9 envA ⟨str "GET", str "/index.html", str "HTTP/1.1",
      [(str "If-None-Match", str "\"10-1-20\"")], true⟩).2.2.2 (by decide),
   (response_headers_c9 envA ⟨str "GET", str "/index.html", str "HTTP/1.1",
      [(str "If-None-Match", str "\"10-1-20\"")], true⟩).2.1⟩

/-- C9 counterexample: the 501 Not Implemented response to a POST carries
no Content-Length header anywhere in its rendered header block — the
block contains "Server: NxLite" and "Connection: close" but no
Content-Length line — so "every outgoing response includes a
Content-Length header" is false. -/
theorem response_headers_c9_cex :
    (http_handle_request envA
      ⟨str "POST", str "/", str "HTTP/1.1", [], true⟩).status_code = 501 ∧
    containsSub (str "Content-Length") (renderHeaders (http_handle_request envA
      ⟨str "POST", str "/", str "HTTP/1.1", [], true⟩)) = false ∧
    containsSub (str "Server: NxLite") (renderHeaders (http_handle_request envA
      ⟨str "POST", str "/", str "HTTP/1.1", [], true⟩)) = true ∧
    containsSub (str "Connection: close") (renderHeaders (http_handle_request envA
      ⟨str "POST", str "/", str "HTTP/1.1", [], true⟩)) = true := by
  decide
